import Mathlib

/-!
Shallow embedding of the banking back-office core of this repository:
the transfer engine (`TransactionService.internal_transfer`,
`TransactionService.external_transfer`), the account lifecycle manager
(`AccountService.freeze_account`, `unfreeze_account`, `close_account`,
and the account-number uniqueness retry loop of `create_account`),
the audit sink (`log_audit` in `security.py`) and the data model
(`models.py`).

Modelling choices, all taken from the source:
* The SQLAlchemy session is modelled as an explicit `BankState` value
  (accounts table, transactions table, audit log).  Monetary values are
  embedded as rationals.  `models.py` declares the monetary columns as
  `db.Float` (IEEE-754 binary64) and Python evaluates balance updates
  in doubles, so the balance arithmetic exists in two renderings: the
  exact-decimal idealization (`internal_transfer`), adequate for the
  representation-independent claims (control flow, validation order,
  frames, row structure — float comparisons on stored values are
  order-isomorphic to the rational model), and the binary64-faithful
  rendering (`roundB64`, `internal_transfer_f`), which rounds every
  stored balance update to 53-bit precision and settles the
  representation-sensitive claims.  The declared SQL column types of
  the monetary fields are recorded in the `Schema` namespace.
* `Account.query.get` is a lookup by primary key `id`; because the two
  Python variables alias the same row object when the two ids coincide,
  balance mutations are embedded as sequential table updates that read
  the current (possibly already updated) value.
* Fresh `transaction_id` values (`default=lambda: str(uuid.uuid4())`
  with a `unique=True` column constraint) are modelled by an injective
  supply: a counter `nextTxId` in the state, each new row drawing the
  next value.
* `datetime.utcnow` is modelled by a logical clock `now` read from the
  state; a single core operation reads one clock value.
* Exceptions raised by `db.session.commit()` in the mutation phase are
  modelled by a `commitOk : Bool` parameter: when `false` the code path
  `db.session.rollback(); raise ValueError(...)` is taken and the state
  reverts to the pre-call state.  Failures of the audit sink are
  modelled by an `auditOk : Bool` parameter: `log_audit` swallows every
  exception, so a failed audit write appends nothing and returns
  normally.
-/

namespace Bank

/-- AccountStatus enum of models.py. -/
inductive AccountStatus where
  | active
  | frozen
  | closed
deriving DecidableEq, Repr

/-- AccountType enum of models.py. -/
inductive AccountType where
  | checking
  | savings
deriving DecidableEq, Repr

/-- TransactionType enum of models.py. -/
inductive TransactionType where
  | credit
  | debit
deriving DecidableEq, Repr

/-- AuditAction enum of models.py. -/
inductive AuditAction where
  | login
  | loginFailed
  | accountFreeze
  | accountUnfreeze
  | transfer
  | adminAction
  | suspiciousActivity
deriving DecidableEq, Repr

/-- Account row of models.py (fields relevant to the core). -/
structure Account where
  id : Nat
  account_number : String
  user_id : Nat
  account_type : AccountType
  balance : ℚ
  status : AccountStatus
  opening_balance : ℚ
  updated_at : Nat
deriving DecidableEq, Repr

/-- Transaction row of models.py. -/
structure Transaction where
  transaction_id : Nat
  sender_id : Nat
  sender_account_id : Nat
  receiver_account_id : Nat
  amount : ℚ
  transaction_type : TransactionType
  description : String
  created_at : Nat
deriving DecidableEq, Repr

/-- AuditLog row of models.py (fields relevant to the core). -/
structure AuditEntry where
  user_id : Nat
  action : AuditAction
  resource_type : String
  resource_id : Option Nat
  details : String
deriving DecidableEq, Repr

/-- The persisted state seen by one core operation: the accounts table,
the transactions table, the audit log, the fresh-transaction-id supply
and the clock. -/
structure BankState where
  accounts : List Account
  transactions : List Transaction
  auditLog : List AuditEntry
  nextTxId : Nat
  now : Nat
deriving DecidableEq, Repr

/-- Account.query.get: lookup by primary key. -/
def getAccount (s : BankState) (accountId : Nat) : Option Account :=
  s.accounts.find? (fun a => a.id == accountId)

/-- Account.query.filter_by(account_number=...).first(): lookup by
account number. -/
def getAccountByNumber (s : BankState) (num : String) : Option Account :=
  s.accounts.find? (fun a => a.account_number == num)

/-- Mutation of the row with the given primary key (the SQLAlchemy
object mutation, seen at table level). -/
def updateAccount (s : BankState) (accountId : Nat) (f : Account → Account) :
    BankState :=
  { s with accounts := s.accounts.map (fun a => if a.id == accountId then f a else a) }

/-- log_audit of security.py: builds an AuditLog row and commits it,
swallowing every exception; a failed write (auditOk = false) changes
nothing and still returns normally. -/
def log_audit (auditOk : Bool) (s : BankState) (e : AuditEntry) : BankState :=
  if auditOk then { s with auditLog := s.auditLog ++ [e] } else s

/-- Typed rendering of the ValueError messages raised by
TransactionService. -/
inductive TransferError where
  | invalidAmount
  | accountNotFound
  | ownershipViolation
  | senderNotActive
  | receiverNotActive
  | insufficientBalance
  | receiverNotFound
  | transferFailed
deriving DecidableEq, Repr

/-- The success dictionary returned by the transfer operations. -/
structure TransferResult where
  transaction_id : Nat
  sender_account : String
  receiver_account : String
  amount : ℚ
  created_at : Nat
deriving DecidableEq, Repr

/-- Audit entry emitted on an ownership violation inside
internal_transfer. -/
def ownershipAuditEntry (uid : Nat) : AuditEntry :=
  { user_id := uid
    action := .suspiciousActivity
    resource_type := "transaction"
    resource_id := none
    details := "Attempted internal transfer with invalid account ownership" }

/-- Audit entry emitted on an insufficient balance inside
internal_transfer. -/
def insufficientAuditEntry (uid : Nat) (amount : ℚ) : AuditEntry :=
  { user_id := uid
    action := .suspiciousActivity
    resource_type := "transaction"
    resource_id := none
    details := "Insufficient balance for transfer: " ++ toString amount }

/-- TransactionService.internal_transfer of transaction_service.py,
embedded line by line: validation (amount, existence, ownership with
suspicious-activity audit, sender status, receiver status, balance with
suspicious-activity audit), then the mutation phase (debit, credit,
DEBIT and CREDIT transaction rows, updated_at bumps, commit), then the
TRANSFER audit entry, returning the result dictionary.  A commit
failure takes the rollback branch and raises with the original state
restored. -/
def internal_transfer (auditOk commitOk : Bool) (s : BankState)
    (sender_user_id sender_account_id receiver_account_id : Nat)
    (amount : ℚ) (description : Option String) :
    Except TransferError TransferResult × BankState :=
  if amount ≤ 0 then
    (.error .invalidAmount, s)
  else
    match getAccount s sender_account_id, getAccount s receiver_account_id with
    | none, _ => (.error .accountNotFound, s)
    | some _, none => (.error .accountNotFound, s)
    | some sender_account, some receiver_account =>
      if sender_account.user_id ≠ sender_user_id ∨
          receiver_account.user_id ≠ sender_user_id then
        (.error .ownershipViolation,
          log_audit auditOk s (ownershipAuditEntry sender_user_id))
      else if sender_account.status ≠ .active then
        (.error .senderNotActive, s)
      else if receiver_account.status ≠ .active then
        (.error .receiverNotActive, s)
      else if sender_account.balance < amount then
        (.error .insufficientBalance,
          log_audit auditOk s (insufficientAuditEntry sender_user_id amount))
      else
        let s1 := updateAccount s sender_account_id
          (fun a => { a with balance := a.balance - amount })
        let s2 := updateAccount s1 receiver_account_id
          (fun a => { a with balance := a.balance + amount })
        let debitTx : Transaction :=
          { transaction_id := s.nextTxId
            sender_id := sender_user_id
            sender_account_id := sender_account_id
            receiver_account_id := receiver_account_id
            amount := amount
            transaction_type := .debit
            description := description.getD "Internal transfer"
            created_at := s.now }
        let creditTx : Transaction :=
          { transaction_id := s.nextTxId + 1
            sender_id := sender_user_id
            sender_account_id := sender_account_id
            receiver_account_id := receiver_account_id
            amount := amount
            transaction_type := .credit
            description := description.getD "Internal transfer"
            created_at := s.now }
        let s3 := { s2 with transactions := s2.transactions ++ [debitTx, creditTx] }
        let s4 := updateAccount s3 sender_account_id
          (fun a => { a with updated_at := s.now })
        let s5 := updateAccount s4 receiver_account_id
          (fun a => { a with updated_at := s.now })
        if commitOk then
          let s6 := { s5 with nextTxId := s.nextTxId + 2 }
          (.ok { transaction_id := debitTx.transaction_id
                 sender_account := sender_account.account_number
                 receiver_account := receiver_account.account_number
                 amount := amount
                 created_at := debitTx.created_at },
            log_audit auditOk s6
              { user_id := sender_user_id
                action := .transfer
                resource_type := "transaction"
                resource_id := some debitTx.transaction_id
                details := "Internal transfer: " ++ toString amount ++ " from " ++
                  sender_account.account_number ++ " to " ++
                  receiver_account.account_number })
        else
          (.error .transferFailed, s)

/-- Audit entry emitted on an ownership violation inside
external_transfer. -/
def externalOwnershipAuditEntry (uid : Nat) : AuditEntry :=
  { user_id := uid
    action := .suspiciousActivity
    resource_type := "transaction"
    resource_id := none
    details := "Attempted external transfer with invalid account ownership" }

/-- Audit entry emitted when the receiver account number of an
external_transfer does not exist. -/
def receiverNotFoundAuditEntry (uid : Nat) (num : String) : AuditEntry :=
  { user_id := uid
    action := .suspiciousActivity
    resource_type := "transaction"
    resource_id := none
    details := "Transfer to non-existent account: " ++ num }

/-- Audit entry emitted on an insufficient balance inside
external_transfer. -/
def externalInsufficientAuditEntry (uid : Nat) (amount : ℚ) : AuditEntry :=
  { user_id := uid
    action := .suspiciousActivity
    resource_type := "transaction"
    resource_id := none
    details := "Insufficient balance for external transfer: " ++ toString amount }

/-- TransactionService.external_transfer of transaction_service.py,
embedded line by line: amount check, sender lookup by id, sender
ownership check (audited), sender status check, receiver lookup by
account number (not-found audited), receiver status check, balance
check (audited), then the same atomic mutation phase as
internal_transfer. -/
def external_transfer (auditOk commitOk : Bool) (s : BankState)
    (sender_user_id sender_account_id : Nat) (receiver_account_number : String)
    (amount : ℚ) (description : Option String) :
    Except TransferError TransferResult × BankState :=
  if amount ≤ 0 then
    (.error .invalidAmount, s)
  else
    match getAccount s sender_account_id with
    | none => (.error .accountNotFound, s)
    | some sender_account =>
      if sender_account.user_id ≠ sender_user_id then
        (.error .ownershipViolation,
          log_audit auditOk s (externalOwnershipAuditEntry sender_user_id))
      else if sender_account.status ≠ .active then
        (.error .senderNotActive, s)
      else
        match getAccountByNumber s receiver_account_number with
        | none =>
          (.error .receiverNotFound,
            log_audit auditOk s
              (receiverNotFoundAuditEntry sender_user_id receiver_account_number))
        | some receiver_account =>
          if receiver_account.status ≠ .active then
            (.error .receiverNotActive, s)
          else if sender_account.balance < amount then
            (.error .insufficientBalance,
              log_audit auditOk s
                (externalInsufficientAuditEntry sender_user_id amount))
          else
            let s1 := updateAccount s sender_account_id
              (fun a => { a with balance := a.balance - amount })
            let s2 := updateAccount s1 receiver_account.id
              (fun a => { a with balance := a.balance + amount })
            let debitTx : Transaction :=
              { transaction_id := s.nextTxId
                sender_id := sender_user_id
                sender_account_id := sender_account_id
                receiver_account_id := receiver_account.id
                amount := amount
                transaction_type := .debit
                description := description.getD "External transfer"
                created_at := s.now }
            let creditTx : Transaction :=
              { transaction_id := s.nextTxId + 1
                sender_id := sender_user_id
                sender_account_id := sender_account_id
                receiver_account_id := receiver_account.id
                amount := amount
                transaction_type := .credit
                description := description.getD "External transfer"
                created_at := s.now }
            let s3 := { s2 with transactions := s2.transactions ++ [debitTx, creditTx] }
            let s4 := updateAccount s3 sender_account_id
              (fun a => { a with updated_at := s.now })
            let s5 := updateAccount s4 receiver_account.id
              (fun a => { a with updated_at := s.now })
            if commitOk then
              let s6 := { s5 with nextTxId := s.nextTxId + 2 }
              (.ok { transaction_id := debitTx.transaction_id
                     sender_account := sender_account.account_number
                     receiver_account := receiver_account.account_number
                     amount := amount
                     created_at := debitTx.created_at },
                log_audit auditOk s6
                  { user_id := sender_user_id
                    action := .transfer
                    resource_type := "transaction"
                    resource_id := some debitTx.transaction_id
                    details := "External transfer: " ++ toString amount ++ " from " ++
                      sender_account.account_number ++ " to " ++
                      receiver_account.account_number })
            else
              (.error .transferFailed, s)

/-- Typed rendering of the ValueError messages raised by
AccountService lifecycle operations. -/
inductive AccountError where
  | accountNotFound
  | alreadyFrozen
  | notFrozen
  | balanceNotZero
  | commitFailed
deriving DecidableEq, Repr

/-- The success dictionary returned by the lifecycle operations. -/
structure StatusResult where
  account_id : Nat
  account_number : String
  status : AccountStatus
deriving DecidableEq, Repr

/-- AccountService.freeze_account of account_service.py: rejects a
missing account and an already FROZEN account, then sets the status to
FROZEN, bumps updated_at, commits, and audits ACCOUNT_FREEZE. -/
def freeze_account (auditOk commitOk : Bool) (s : BankState)
    (account_id admin_id : Nat) :
    Except AccountError StatusResult × BankState :=
  match getAccount s account_id with
  | none => (.error .accountNotFound, s)
  | some account =>
    if account.status = .frozen then
      (.error .alreadyFrozen, s)
    else
      let s1 := updateAccount s account_id
        (fun a => { a with status := .frozen, updated_at := s.now })
      if commitOk then
        (.ok { account_id := account.id
               account_number := account.account_number
               status := .frozen },
          log_audit auditOk s1
            { user_id := admin_id
              action := .accountFreeze
              resource_type := "account"
              resource_id := some account.id
              details := "Account frozen: " ++ account.account_number })
      else
        (.error .commitFailed, s)

/-- AccountService.unfreeze_account of account_service.py: rejects a
missing account and any account that is not FROZEN, then sets the
status to ACTIVE, bumps updated_at, commits, and audits
ACCOUNT_UNFREEZE. -/
def unfreeze_account (auditOk commitOk : Bool) (s : BankState)
    (account_id admin_id : Nat) :
    Except AccountError StatusResult × BankState :=
  match getAccount s account_id with
  | none => (.error .accountNotFound, s)
  | some account =>
    if account.status ≠ .frozen then
      (.error .notFrozen, s)
    else
      let s1 := updateAccount s account_id
        (fun a => { a with status := .active, updated_at := s.now })
      if commitOk then
        (.ok { account_id := account.id
               account_number := account.account_number
               status := .active },
          log_audit auditOk s1
            { user_id := admin_id
              action := .accountUnfreeze
              resource_type := "account"
              resource_id := some account.id
              details := "Account unfrozen: " ++ account.account_number })
      else
        (.error .commitFailed, s)

/-- AccountService.close_account of account_service.py: rejects a
missing account and a nonzero balance (the status is not inspected at
all), then sets the status to CLOSED, bumps updated_at, commits, and
audits ADMIN_ACTION. -/
def close_account (auditOk commitOk : Bool) (s : BankState)
    (account_id admin_id : Nat) :
    Except AccountError StatusResult × BankState :=
  match getAccount s account_id with
  | none => (.error .accountNotFound, s)
  | some account =>
    if account.balance ≠ 0 then
      (.error .balanceNotZero, s)
    else
      let s1 := updateAccount s account_id
        (fun a => { a with status := .closed, updated_at := s.now })
      if commitOk then
        (.ok { account_id := account.id
               account_number := account.account_number
               status := .closed },
          log_audit auditOk s1
            { user_id := admin_id
              action := .adminAction
              resource_type := "account"
              resource_id := some account.id
              details := "Account closed: " ++ account.account_number })
      else
        (.error .commitFailed, s)

/-- The account-number uniqueness retry loop inlined in
AccountService.create_account: `account_number = generate_account_number();
while store-has(account_number): account_number = generate_account_number()`.
The successive random draws of generate_account_number are the stream
`gen`; `taken` is the store collision test; `fuel` bounds how many loop
iterations we observe.  The source loop carries no iteration bound and
no failure arm, so exhausting `fuel` yields `none`, meaning the loop is
still running, never a fatal allocation error. -/
def account_number_retry_loop (taken : String → Bool) (gen : Nat → String) :
    Nat → Nat → Option String
  | _, 0 => none
  | i, fuel + 1 =>
    if taken (gen i) then account_number_retry_loop taken gen (i + 1) fuel
    else some (gen i)

end Bank

namespace Schema

/-- Declared SQLAlchemy column types appearing in models.py, together
with the decimal type the spec requires for monetary fields. -/
inductive ColumnType where
  | integer
  | string
  | float
  | boolean
  | datetime
  | text
  | enumeration
  | numeric
deriving DecidableEq, Repr

/-- Declared column type of Account.balance in models.py:
`db.Column(db.Float, default=0.0, nullable=False)`. -/
def accountBalanceColumn : ColumnType := .float

/-- Declared column type of Account.opening_balance in models.py:
`db.Column(db.Float, default=0.0, nullable=False)`. -/
def accountOpeningBalanceColumn : ColumnType := .float

/-- Declared column type of Transaction.amount in models.py:
`db.Column(db.Float, nullable=False)`. -/
def transactionAmountColumn : ColumnType := .float

/-- The representation the spec demands for all monetary fields: a
fixed-point or decimal column, never binary floating point. -/
def monetaryFieldsAreDecimal : Prop :=
  accountBalanceColumn = .numeric ∧
  accountOpeningBalanceColumn = .numeric ∧
  transactionAmountColumn = .numeric

end Schema

namespace Bank

/-- Names for the six validation steps of an internal transfer. -/
inductive Violation where
  | invalidAmount
  | accountNotFound
  | ownershipViolation
  | senderInactive
  | receiverInactive
  | insufficientBalance
deriving DecidableEq, Repr

/-- Validation order as the spec states it for InternalTransfer
(fail fast, first violation wins): amount positive, both accounts
exist, both owned by the acting user, sender ACTIVE, receiver ACTIVE,
sufficient sender balance.  This definition follows the wording of the
spec and is compared against the embedded internal_transfer. -/
def specFirstViolation (s : BankState) (uid said raid : Nat) (amount : ℚ) :
    Option Violation :=
  if amount ≤ 0 then some .invalidAmount
  else
    match getAccount s said, getAccount s raid with
    | none, _ => some .accountNotFound
    | some _, none => some .accountNotFound
    | some sender, some receiver =>
      if sender.user_id ≠ uid ∨ receiver.user_id ≠ uid then
        some .ownershipViolation
      else if sender.status ≠ .active then some .senderInactive
      else if receiver.status ≠ .active then some .receiverInactive
      else if sender.balance < amount then some .insufficientBalance
      else none

/-- The error internal_transfer raises at each validation step. -/
def errorOfViolation : Violation → TransferError
  | .invalidAmount => .invalidAmount
  | .accountNotFound => .accountNotFound
  | .ownershipViolation => .ownershipViolation
  | .senderInactive => .senderNotActive
  | .receiverInactive => .receiverNotActive
  | .insufficientBalance => .insufficientBalance

/-- The audit entries internal_transfer appends at each validation
step: exactly the ownership and balance failures emit a
SUSPICIOUS_ACTIVITY entry (when the audit sink is up), the other steps
emit nothing. -/
def auditDeltaOfViolation (auditOk : Bool) (uid : Nat) (amount : ℚ) :
    Violation → List AuditEntry
  | .ownershipViolation => if auditOk then [ownershipAuditEntry uid] else []
  | .insufficientBalance => if auditOk then [insufficientAuditEntry uid amount] else []
  | _ => []

/-- Result test for the embedded operations. -/
def exceptIsOk {ε α : Type} : Except ε α → Bool
  | .ok _ => true
  | .error _ => false

/-- Primary-key well-formedness of the accounts table: account ids are
pairwise distinct (the id column is the primary key). -/
def WF (s : BankState) : Prop :=
  (s.accounts.map (fun a => a.id)).Nodup

instance (s : BankState) : Decidable (WF s) := by
  unfold WF; infer_instance

/-- Sum of the balances of a list of account rows. -/
def balSum (l : List Account) : ℚ :=
  (l.map (fun a => a.balance)).sum

/-- Sum of the balances of all accounts in the store. -/
def totalBalance (s : BankState) : ℚ :=
  balSum s.accounts

/-- Arguments of one internal_transfer call, including the behaviour
of the audit sink and of the commit during that call. -/
structure Cmd where
  auditOk : Bool
  commitOk : Bool
  uid : Nat
  said : Nat
  raid : Nat
  amount : ℚ
  description : Option String
deriving Repr

/-- State reached after one internal_transfer call. -/
def step (s : BankState) (c : Cmd) : BankState :=
  (internal_transfer c.auditOk c.commitOk s c.uid c.said c.raid c.amount c.description).2

/-- State reached after a sequence of internal_transfer calls. -/
def runTransfers (s : BankState) (cs : List Cmd) : BankState :=
  cs.foldl step s

/-- Demo account: checking account of user 10 with balance 1000. -/
def accountA : Account :=
  { id := 1, account_number := "ACC-0000000001", user_id := 10
    account_type := .checking, balance := 1000, status := .active
    opening_balance := 1000, updated_at := 0 }

/-- Demo account: savings account of user 10 with balance 500. -/
def accountB : Account :=
  { id := 2, account_number := "ACC-0000000002", user_id := 10
    account_type := .savings, balance := 500, status := .active
    opening_balance := 500, updated_at := 0 }

/-- Demo account: CLOSED account of user 20 with balance 0. -/
def accountC : Account :=
  { id := 3, account_number := "ACC-0000000003", user_id := 20
    account_type := .checking, balance := 0, status := .closed
    opening_balance := 0, updated_at := 0 }

/-- Demo account: active account of user 20 with balance 1/100
(one cent). -/
def accountD : Account :=
  { id := 4, account_number := "ACC-0000000004", user_id := 20
    account_type := .savings, balance := 1/100, status := .active
    opening_balance := 1/100, updated_at := 0 }

/-- Demo account: active account of user 20 with balance 0. -/
def accountE : Account :=
  { id := 5, account_number := "ACC-0000000005", user_id := 20
    account_type := .checking, balance := 0, status := .active
    opening_balance := 0, updated_at := 0 }

/-- Demo store holding the five demo accounts and empty transaction
and audit tables. -/
def demoState : BankState :=
  { accounts := [accountA, accountB, accountC, accountD, accountE]
    transactions := [], auditLog := [], nextTxId := 0, now := 1 }

end Bank

namespace Bank

lemma log_audit_accounts (b : Bool) (s : BankState) (e : AuditEntry) :
    (log_audit b s e).accounts = s.accounts := by
  cases b <;> simp [log_audit]

lemma log_audit_transactions (b : Bool) (s : BankState) (e : AuditEntry) :
    (log_audit b s e).transactions = s.transactions := by
  cases b <;> simp [log_audit]

lemma updateAccount_transactions (s : BankState) (i : Nat) (f : Account → Account) :
    (updateAccount s i f).transactions = s.transactions := rfl

lemma getAccount_updateAccount (s : BankState) (i j : Nat) (f : Account → Account)
    (hf : ∀ a, (f a).id = a.id) :
    getAccount (updateAccount s i f) j =
      (getAccount s j).map (fun a => if a.id == i then f a else a) := by
  unfold getAccount updateAccount
  rw [List.find?_map]
  have hp : (fun a : Account => a.id == j) ∘ (fun a => if a.id == i then f a else a) =
      fun a : Account => a.id == j := by
    funext a
    by_cases h : a.id = i
    · simp [h, hf]
    · simp [h]
  rw [hp]

lemma ids_updateAccount (s : BankState) (i : Nat) (f : Account → Account)
    (hf : ∀ a, (f a).id = a.id) :
    (updateAccount s i f).accounts.map (fun a => a.id) =
      s.accounts.map (fun a => a.id) := by
  unfold updateAccount
  simp only [List.map_map]
  apply List.map_congr_left
  intro a _
  by_cases h : a.id = i
  · simp [h, hf]
  · simp [h]

lemma balSum_map (l : List Account) (g : Account → Account) :
    balSum (l.map g) = balSum l + (l.map (fun a => (g a).balance - a.balance)).sum := by
  induction l with
  | nil => simp [balSum]
  | cons a t ih => simp [balSum, List.map_cons, List.sum_cons] at ih ⊢; rw [ih]; ring

lemma sum_ite_of_find? (l : List Account) (i : Nat) (h : Account → ℚ)
    (acc : Account)
    (hnd : (l.map (fun a => a.id)).Nodup)
    (hfind : l.find? (fun a => a.id == i) = some acc) :
    (l.map (fun a => if a.id == i then h a else 0)).sum = h acc := by
  induction l with
  | nil => simp at hfind
  | cons b t ih =>
    rw [List.map_cons, List.nodup_cons] at hnd
    by_cases hb : (b.id == i) = true
    · rw [@List.find?_cons_of_pos _ (fun a => a.id == i) b t hb] at hfind
      injection hfind with hacc
      subst hacc
      have hbid : b.id = i := by simpa using hb
      have ht : (t.map (fun a => if a.id == i then h a else (0:ℚ))).sum = 0 := by
        have hz : ∀ x ∈ t, (if x.id == i then h x else (0:ℚ)) = (fun _ => (0:ℚ)) x := by
          intro x hx
          have hxid : x.id ≠ i := by
            intro hxi
            apply hnd.1
            rw [← hbid] at hxi
            rw [← hxi]
            exact List.mem_map_of_mem _ hx
          simp [hxid]
        rw [List.map_congr_left hz]
        simp
      rw [List.map_cons, List.sum_cons, if_pos hb, ht]
      ring
    · rw [@List.find?_cons_of_neg _ (fun a => a.id == i) b t hb] at hfind
      rw [List.map_cons, List.sum_cons, if_neg (by simpa using hb)]
      rw [ih hnd.2 hfind]
      ring

lemma getAccount_log_audit (b : Bool) (s : BankState) (e : AuditEntry) (j : Nat) :
    getAccount (log_audit b s e) j = getAccount s j := by
  unfold getAccount
  rw [log_audit_accounts]

lemma getAccount_updateAccount_ne (s : BankState) (i j : Nat) (f : Account → Account)
    (hf : ∀ a, (f a).id = a.id) (hne : j ≠ i) :
    getAccount (updateAccount s i f) j = getAccount s j := by
  rw [getAccount_updateAccount s i j f hf]
  cases h : getAccount s j with
  | none => rfl
  | some a =>
    have h' : List.find? (fun a => a.id == j) s.accounts = some a := h
    have ha0 := List.find?_some h'
    have ha : (a.id == j) = true := by simpa using ha0
    have hai : a.id ≠ i := by
      have : a.id = j := by simpa using ha
      rw [this]; exact hne
    simp [hai]

lemma getAccount_updateAccount_self (s : BankState) (i : Nat) (f : Account → Account)
    (hf : ∀ a, (f a).id = a.id) (acc : Account) (hfind : getAccount s i = some acc) :
    getAccount (updateAccount s i f) i = some (f acc) := by
  rw [getAccount_updateAccount s i i f hf, hfind]
  have h' : List.find? (fun a => a.id == i) s.accounts = some acc := hfind
  have ha0 := List.find?_some h'
  have ha : (acc.id == i) = true := by simpa using ha0
  show some (if (acc.id == i) = true then f acc else acc) = some (f acc)
  rw [if_pos ha]

lemma WF_updateAccount (s : BankState) (i : Nat) (f : Account → Account)
    (hf : ∀ a, (f a).id = a.id) (hwf : WF s) : WF (updateAccount s i f) := by
  unfold WF
  rw [ids_updateAccount s i f hf]
  exact hwf

lemma balSum_update (l : List Account) (i : Nat) (f : Account → Account)
    (acc : Account)
    (hnd : (l.map (fun a => a.id)).Nodup)
    (hfind : l.find? (fun a => a.id == i) = some acc) :
    balSum (l.map (fun a => if a.id == i then f a else a)) =
      balSum l + ((f acc).balance - acc.balance) := by
  rw [balSum_map]
  congr 1
  have hcong : ∀ a ∈ l, ((if a.id == i then f a else a).balance - a.balance)
      = (if a.id == i then (f a).balance - a.balance else 0) := by
    intro a _
    by_cases h : a.id = i
    · simp [h]
    · simp [h]
  rw [List.map_congr_left hcong]
  exact sum_ite_of_find? l i _ acc hnd hfind

lemma totalBalance_updateAccount (s : BankState) (i : Nat) (f : Account → Account)
    (acc : Account) (hwf : WF s) (hfind : getAccount s i = some acc) :
    totalBalance (updateAccount s i f) =
      totalBalance s + ((f acc).balance - acc.balance) := by
  unfold totalBalance updateAccount
  exact balSum_update s.accounts i f acc hwf hfind

lemma totalBalance_log_audit (b : Bool) (s : BankState) (e : AuditEntry) :
    totalBalance (log_audit b s e) = totalBalance s := by
  unfold totalBalance
  rw [log_audit_accounts]

lemma totalBalance_updateAccount_balpres (s : BankState) (i : Nat)
    (f : Account → Account) (hf : ∀ a, (f a).balance = a.balance) :
    totalBalance (updateAccount s i f) = totalBalance s := by
  unfold totalBalance updateAccount
  rw [balSum_map]
  have hz : ∀ a ∈ s.accounts,
      ((if a.id == i then f a else a).balance - a.balance) = (fun _ => (0:ℚ)) a := by
    intro a _
    by_cases h : a.id = i
    · simp [h, hf]
    · simp [h]
  rw [List.map_congr_left hz]
  simp

/-- Shape of the DEBIT transaction row created by a successful
transfer. -/
def debitRow (txId uid said raid : Nat) (amount : ℚ) (desc : String) (t : Nat) :
    Transaction :=
  { transaction_id := txId, sender_id := uid, sender_account_id := said
    receiver_account_id := raid, amount := amount, transaction_type := .debit
    description := desc, created_at := t }

/-- Shape of the CREDIT transaction row created by a successful
transfer. -/
def creditRow (txId uid said raid : Nat) (amount : ℚ) (desc : String) (t : Nat) :
    Transaction :=
  { transaction_id := txId, sender_id := uid, sender_account_id := said
    receiver_account_id := raid, amount := amount, transaction_type := .credit
    description := desc, created_at := t }

section InternalTransferLemmas

variable (auditOk commitOk : Bool) (s : BankState)
variable (uid said raid : Nat) (amount : ℚ) (d : Option String)

lemma internal_transfer_ok_result (sender receiver : Account)
    (hs : getAccount s said = some sender)
    (hr : getAccount s raid = some receiver)
    (hpos : 0 < amount)
    (howns : sender.user_id = uid) (hownr : receiver.user_id = uid)
    (hsst : sender.status = .active) (hrst : receiver.status = .active)
    (hbal : amount ≤ sender.balance) :
    (internal_transfer auditOk true s uid said raid amount d).1 =
      .ok { transaction_id := s.nextTxId
            sender_account := sender.account_number
            receiver_account := receiver.account_number
            amount := amount
            created_at := s.now } := by
  have h1 : ¬ amount ≤ 0 := not_le.mpr hpos
  have h2 : ¬ (sender.user_id ≠ uid ∨ receiver.user_id ≠ uid) := by
    simp [howns, hownr]
  have h3 : ¬ sender.status ≠ AccountStatus.active := by simp [hsst]
  have h4 : ¬ receiver.status ≠ AccountStatus.active := by simp [hrst]
  have h5 : ¬ sender.balance < amount := not_lt.mpr hbal
  simp only [internal_transfer, hs, hr, h1, h2, h3, h4, h5, if_false, ite_false,
    not_false_iff, if_true, ite_true]

lemma internal_transfer_ok_transactions (sender receiver : Account)
    (hs : getAccount s said = some sender)
    (hr : getAccount s raid = some receiver)
    (hpos : 0 < amount)
    (howns : sender.user_id = uid) (hownr : receiver.user_id = uid)
    (hsst : sender.status = .active) (hrst : receiver.status = .active)
    (hbal : amount ≤ sender.balance) :
    (internal_transfer auditOk true s uid said raid amount d).2.transactions =
      s.transactions ++
        [debitRow s.nextTxId uid said raid amount (d.getD "Internal transfer") s.now,
         creditRow (s.nextTxId + 1) uid said raid amount (d.getD "Internal transfer") s.now] := by
  have h1 : ¬ amount ≤ 0 := not_le.mpr hpos
  have h2 : ¬ (sender.user_id ≠ uid ∨ receiver.user_id ≠ uid) := by
    simp [howns, hownr]
  have h3 : ¬ sender.status ≠ AccountStatus.active := by simp [hsst]
  have h4 : ¬ receiver.status ≠ AccountStatus.active := by simp [hrst]
  have h5 : ¬ sender.balance < amount := not_lt.mpr hbal
  simp only [internal_transfer, hs, hr, h1, h2, h3, h4, h5, if_false, ite_false,
    not_false_iff, if_true, ite_true]
  rw [log_audit_transactions]
  simp [debitRow, creditRow, updateAccount]

end InternalTransferLemmas

lemma ids_update_time (s : BankState) (i t : Nat) :
    ((updateAccount s i (fun a => { a with updated_at := t })).accounts.map
        (fun a => a.id)) = s.accounts.map (fun a => a.id) :=
  ids_updateAccount s i _ (fun _ => rfl)

lemma ids_update_bal (s : BankState) (i : Nat) (h : Account → ℚ) :
    ((updateAccount s i (fun a => { a with balance := h a })).accounts.map
        (fun a => a.id)) = s.accounts.map (fun a => a.id) :=
  ids_updateAccount s i _ (fun _ => rfl)

lemma ids_update_status (s : BankState) (i : Nat) (st : AccountStatus) (t : Nat) :
    ((updateAccount s i (fun a => { a with status := st, updated_at := t })).accounts.map
        (fun a => a.id)) = s.accounts.map (fun a => a.id) :=
  ids_updateAccount s i _ (fun _ => rfl)

section InternalTransferLemmas2

variable (auditOk commitOk : Bool) (s : BankState)
variable (uid said raid : Nat) (amount : ℚ) (d : Option String)

lemma internal_transfer_ids :
    ((internal_transfer auditOk commitOk s uid said raid amount d).2.accounts.map
        (fun a => a.id)) = s.accounts.map (fun a => a.id) := by
  unfold internal_transfer
  split
  · rfl
  · split
    · rfl
    · rfl
    · split_ifs with h2 h3 h4 h5 h6
      · simp only [log_audit_accounts]
      · rfl
      · rfl
      · simp only [log_audit_accounts]
      · simp only [log_audit_accounts]
        rw [ids_update_time, ids_update_time]
        rw [ids_update_bal, ids_update_bal]
      · rfl

end InternalTransferLemmas2

lemma WF_internal_transfer (auditOk commitOk : Bool) (s : BankState)
    (uid said raid : Nat) (amount : ℚ) (d : Option String) (hwf : WF s) :
    WF (internal_transfer auditOk commitOk s uid said raid amount d).2 := by
  unfold WF
  rw [internal_transfer_ids]
  exact hwf

lemma totalBalance_set_nextTxId (t : BankState) (n : Nat) :
    totalBalance { t with nextTxId := n } = totalBalance t := rfl

lemma totalBalance_set_transactions (t : BankState) (l : List Transaction) :
    totalBalance { t with transactions := l } = totalBalance t := rfl

lemma tb_update_time (s : BankState) (i t : Nat) :
    totalBalance (updateAccount s i (fun a => { a with updated_at := t })) =
      totalBalance s :=
  totalBalance_updateAccount_balpres s i _ (fun _ => rfl)

lemma tb_update_balfun (s : BankState) (i : Nat) (h : Account → ℚ) (acc : Account)
    (hwf : WF s) (hfind : getAccount s i = some acc) :
    totalBalance (updateAccount s i (fun a => { a with balance := h a })) =
      totalBalance s + (h acc - acc.balance) :=
  totalBalance_updateAccount s i _ acc hwf hfind

lemma internal_transfer_totalBalance (auditOk commitOk : Bool) (s : BankState)
    (uid said raid : Nat) (amount : ℚ) (d : Option String) (hwf : WF s) :
    totalBalance (internal_transfer auditOk commitOk s uid said raid amount d).2 =
      totalBalance s := by
  unfold internal_transfer
  split
  · rfl
  · split
    · rfl
    · rfl
    · rename_i sender receiver hs hr
      split_ifs with h2 h3 h4 h5 h6
      · exact totalBalance_log_audit ..
      · rfl
      · rfl
      · exact totalBalance_log_audit ..
      · rw [totalBalance_log_audit, totalBalance_set_nextTxId,
          tb_update_time, tb_update_time, totalBalance_set_transactions]
        have hwf1 : WF (updateAccount s said (fun a => { a with balance := a.balance - amount })) := by
          unfold WF
          rw [ids_update_bal]
          exact hwf
        have hfind1 : getAccount
            (updateAccount s said (fun a => { a with balance := a.balance - amount })) raid =
            some (if receiver.id == said then
              { receiver with balance := receiver.balance - amount } else receiver) := by
          rw [getAccount_updateAccount s said raid
            (fun a => { a with balance := a.balance - amount }) (fun _ => rfl), hr]
          rfl
        rw [tb_update_balfun _ raid (fun a => a.balance + amount) _ hwf1 hfind1]
        rw [tb_update_balfun _ said (fun a => a.balance - amount) _ hwf hs]
        ring
      · rfl

lemma getAccount_set_nextTxId (t : BankState) (n j : Nat) :
    getAccount { t with nextTxId := n } j = getAccount t j := rfl

lemma getAccount_set_transactions (t : BankState) (l : List Transaction) (j : Nat) :
    getAccount { t with transactions := l } j = getAccount t j := rfl

lemma internal_transfer_ok_getAccount (auditOk : Bool) (s : BankState)
    (uid said raid : Nat) (amount : ℚ) (d : Option String)
    (sender receiver : Account)
    (hs : getAccount s said = some sender)
    (hr : getAccount s raid = some receiver)
    (hpos : 0 < amount)
    (howns : sender.user_id = uid) (hownr : receiver.user_id = uid)
    (hsst : sender.status = .active) (hrst : receiver.status = .active)
    (hbal : amount ≤ sender.balance) (j : Nat) :
    getAccount (internal_transfer auditOk true s uid said raid amount d).2 j =
      (getAccount s j).map (fun a =>
        let a1 := if a.id == said then { a with balance := a.balance - amount } else a
        let a2 := if a1.id == raid then { a1 with balance := a1.balance + amount } else a1
        let a3 := if a2.id == said then { a2 with updated_at := s.now } else a2
        if a3.id == raid then { a3 with updated_at := s.now } else a3) := by
  have h1 : ¬ amount ≤ 0 := not_le.mpr hpos
  have h2 : ¬ (sender.user_id ≠ uid ∨ receiver.user_id ≠ uid) := by
    simp [howns, hownr]
  have h3 : ¬ sender.status ≠ AccountStatus.active := by simp [hsst]
  have h4 : ¬ receiver.status ≠ AccountStatus.active := by simp [hrst]
  have h5 : ¬ sender.balance < amount := not_lt.mpr hbal
  simp only [internal_transfer, hs, hr, h1, h2, h3, h4, h5, if_false, ite_false,
    not_false_iff, if_true, ite_true]
  rw [getAccount_log_audit, getAccount_set_nextTxId]
  rw [getAccount_updateAccount _ raid j (fun a => { a with updated_at := s.now })
    (fun _ => rfl)]
  rw [getAccount_updateAccount _ said j (fun a => { a with updated_at := s.now })
    (fun _ => rfl)]
  rw [getAccount_set_transactions]
  rw [getAccount_updateAccount _ raid j (fun a => { a with balance := a.balance + amount })
    (fun _ => rfl)]
  rw [getAccount_updateAccount _ said j (fun a => { a with balance := a.balance - amount })
    (fun _ => rfl)]
  cases getAccount s j with
  | none => rfl
  | some a => rfl

lemma internal_transfer_error_frame (auditOk commitOk : Bool) (s : BankState)
    (uid said raid : Nat) (amount : ℚ) (d : Option String) (e : TransferError) :
    (internal_transfer auditOk commitOk s uid said raid amount d).1 = .error e →
    (internal_transfer auditOk commitOk s uid said raid amount d).2.accounts = s.accounts ∧
    (internal_transfer auditOk commitOk s uid said raid amount d).2.transactions =
      s.transactions := by
  rcases hcall : internal_transfer auditOk commitOk s uid said raid amount d with ⟨res, s2⟩
  intro herr
  simp only at herr
  show s2.accounts = s.accounts ∧ s2.transactions = s.transactions
  unfold internal_transfer at hcall
  split at hcall
  · rw [Prod.mk.injEq] at hcall
    rw [← hcall.2]
    exact ⟨rfl, rfl⟩
  · split at hcall
    · rw [Prod.mk.injEq] at hcall
      rw [← hcall.2]
      exact ⟨rfl, rfl⟩
    · rw [Prod.mk.injEq] at hcall
      rw [← hcall.2]
      exact ⟨rfl, rfl⟩
    · split_ifs at hcall with h2 h3 h4 h5 h6 <;> rw [Prod.mk.injEq] at hcall
      · rw [← hcall.2]
        exact ⟨log_audit_accounts .., log_audit_transactions ..⟩
      · rw [← hcall.2]
        exact ⟨rfl, rfl⟩
      · rw [← hcall.2]
        exact ⟨rfl, rfl⟩
      · rw [← hcall.2]
        exact ⟨log_audit_accounts .., log_audit_transactions ..⟩
      · rw [← hcall.1] at herr
        simp at herr
      · rw [← hcall.2]
        exact ⟨rfl, rfl⟩

lemma internal_transfer_audit_independence (commitOk : Bool) (s : BankState)
    (uid said raid : Nat) (amount : ℚ) (d : Option String) :
    (internal_transfer true commitOk s uid said raid amount d).1 =
      (internal_transfer false commitOk s uid said raid amount d).1 ∧
    (internal_transfer true commitOk s uid said raid amount d).2.accounts =
      (internal_transfer false commitOk s uid said raid amount d).2.accounts ∧
    (internal_transfer true commitOk s uid said raid amount d).2.transactions =
      (internal_transfer false commitOk s uid said raid amount d).2.transactions := by
  unfold internal_transfer
  rcases hs : getAccount s said with _ | sender <;>
    rcases hr : getAccount s raid with _ | receiver <;>
    simp only [hs, hr]
  · exact ⟨trivial, trivial, trivial⟩
  · exact ⟨trivial, trivial, trivial⟩
  · exact ⟨trivial, trivial, trivial⟩
  · split_ifs <;>
      simp [log_audit_accounts, log_audit_transactions, log_audit]

lemma internal_transfer_ok_commit (auditOk commitOk : Bool) (s : BankState)
    (uid said raid : Nat) (amount : ℚ) (d : Option String) (r : TransferResult) :
    (internal_transfer auditOk commitOk s uid said raid amount d).1 = .ok r →
    commitOk = true := by
  rcases hcall : internal_transfer auditOk commitOk s uid said raid amount d with ⟨res, s2⟩
  intro hok
  simp only at hok
  unfold internal_transfer at hcall
  split at hcall
  · rw [Prod.mk.injEq] at hcall
    rw [← hcall.1] at hok
    simp at hok
  · split at hcall
    · rw [Prod.mk.injEq] at hcall
      rw [← hcall.1] at hok
      simp at hok
    · rw [Prod.mk.injEq] at hcall
      rw [← hcall.1] at hok
      simp at hok
    · split_ifs at hcall with h2 h3 h4 h5 h6
      · rw [Prod.mk.injEq] at hcall
        rw [← hcall.1] at hok
        simp at hok
      · rw [Prod.mk.injEq] at hcall
        rw [← hcall.1] at hok
        simp at hok
      · rw [Prod.mk.injEq] at hcall
        rw [← hcall.1] at hok
        simp at hok
      · rw [Prod.mk.injEq] at hcall
        rw [← hcall.1] at hok
        simp at hok
      · exact h6
      · rw [Prod.mk.injEq] at hcall
        rw [← hcall.1] at hok
        simp at hok

lemma external_transfer_error_frame (auditOk commitOk : Bool) (s : BankState)
    (uid said : Nat) (rnum : String) (amount : ℚ) (d : Option String)
    (e : TransferError) :
    (external_transfer auditOk commitOk s uid said rnum amount d).1 = .error e →
    (external_transfer auditOk commitOk s uid said rnum amount d).2.accounts = s.accounts ∧
    (external_transfer auditOk commitOk s uid said rnum amount d).2.transactions =
      s.transactions := by
  rcases hcall : external_transfer auditOk commitOk s uid said rnum amount d with ⟨res, s2⟩
  intro herr
  simp only at herr
  show s2.accounts = s.accounts ∧ s2.transactions = s.transactions
  unfold external_transfer at hcall
  split at hcall
  · rw [Prod.mk.injEq] at hcall
    rw [← hcall.2]
    exact ⟨rfl, rfl⟩
  · split at hcall
    · rw [Prod.mk.injEq] at hcall
      rw [← hcall.2]
      exact ⟨rfl, rfl⟩
    · split at hcall
      · rw [Prod.mk.injEq] at hcall
        rw [← hcall.2]
        exact ⟨log_audit_accounts .., log_audit_transactions ..⟩
      · split at hcall
        · rw [Prod.mk.injEq] at hcall
          rw [← hcall.2]
          exact ⟨rfl, rfl⟩
        · split at hcall
          · rw [Prod.mk.injEq] at hcall
            rw [← hcall.2]
            exact ⟨log_audit_accounts .., log_audit_transactions ..⟩
          · split at hcall
            · rw [Prod.mk.injEq] at hcall
              rw [← hcall.2]
              exact ⟨rfl, rfl⟩
            · split at hcall
              · rw [Prod.mk.injEq] at hcall
                rw [← hcall.2]
                exact ⟨log_audit_accounts .., log_audit_transactions ..⟩
              · split at hcall
                · rw [Prod.mk.injEq] at hcall
                  rw [← hcall.1] at herr
                  simp at herr
                · rw [Prod.mk.injEq] at hcall
                  rw [← hcall.2]
                  exact ⟨rfl, rfl⟩

lemma external_transfer_audit_independence (commitOk : Bool) (s : BankState)
    (uid said : Nat) (rnum : String) (amount : ℚ) (d : Option String) :
    (external_transfer true commitOk s uid said rnum amount d).1 =
      (external_transfer false commitOk s uid said rnum amount d).1 ∧
    (external_transfer true commitOk s uid said rnum amount d).2.accounts =
      (external_transfer false commitOk s uid said rnum amount d).2.accounts ∧
    (external_transfer true commitOk s uid said rnum amount d).2.transactions =
      (external_transfer false commitOk s uid said rnum amount d).2.transactions := by
  unfold external_transfer
  rcases hs : getAccount s said with _ | sender <;>
    rcases hrn : getAccountByNumber s rnum with _ | receiver <;>
    simp only [hs, hrn]
  · exact ⟨trivial, trivial, trivial⟩
  · exact ⟨trivial, trivial, trivial⟩
  · split_ifs <;>
      simp [log_audit_accounts, log_audit_transactions, log_audit]
  · split_ifs <;>
      simp [log_audit_accounts, log_audit_transactions, log_audit]

lemma external_transfer_ok_commit (auditOk commitOk : Bool) (s : BankState)
    (uid said : Nat) (rnum : String) (amount : ℚ) (d : Option String)
    (r : TransferResult) :
    (external_transfer auditOk commitOk s uid said rnum amount d).1 = .ok r →
    commitOk = true := by
  rcases hcall : external_transfer auditOk commitOk s uid said rnum amount d with ⟨res, s2⟩
  intro hok
  simp only at hok
  unfold external_transfer at hcall
  split at hcall
  · rw [Prod.mk.injEq] at hcall
    rw [← hcall.1] at hok
    simp at hok
  · split at hcall
    · rw [Prod.mk.injEq] at hcall
      rw [← hcall.1] at hok
      simp at hok
    · split at hcall
      · rw [Prod.mk.injEq] at hcall
        rw [← hcall.1] at hok
        simp at hok
      · split at hcall
        · rw [Prod.mk.injEq] at hcall
          rw [← hcall.1] at hok
          simp at hok
        · split at hcall
          · rw [Prod.mk.injEq] at hcall
            rw [← hcall.1] at hok
            simp at hok
          · split at hcall
            · rw [Prod.mk.injEq] at hcall
              rw [← hcall.1] at hok
              simp at hok
            · split at hcall
              · rw [Prod.mk.injEq] at hcall
                rw [← hcall.1] at hok
                simp at hok
              · split at hcall
                · rename_i hcommit
                  exact hcommit
                · rw [Prod.mk.injEq] at hcall
                  rw [← hcall.1] at hok
                  simp at hok

lemma external_transfer_ok_transactions (auditOk : Bool) (s : BankState)
    (uid said : Nat) (rnum : String) (amount : ℚ) (d : Option String)
    (sender receiver : Account)
    (hs : getAccount s said = some sender)
    (hrn : getAccountByNumber s rnum = some receiver)
    (hpos : 0 < amount)
    (howns : sender.user_id = uid)
    (hsst : sender.status = .active) (hrst : receiver.status = .active)
    (hbal : amount ≤ sender.balance) :
    (external_transfer auditOk true s uid said rnum amount d).2.transactions =
      s.transactions ++
        [debitRow s.nextTxId uid said receiver.id amount (d.getD "External transfer") s.now,
         creditRow (s.nextTxId + 1) uid said receiver.id amount
           (d.getD "External transfer") s.now] := by
  have h1 : ¬ amount ≤ 0 := not_le.mpr hpos
  have h2 : ¬ sender.user_id ≠ uid := by simp [howns]
  have h3 : ¬ sender.status ≠ AccountStatus.active := by simp [hsst]
  have h4 : ¬ receiver.status ≠ AccountStatus.active := by simp [hrst]
  have h5 : ¬ sender.balance < amount := not_lt.mpr hbal
  simp only [external_transfer, hs, hrn, h1, h2, h3, h4, h5, if_false, ite_false,
    not_false_iff, if_true, ite_true]
  rw [log_audit_transactions]
  simp [debitRow, creditRow, updateAccount]

lemma internal_transfer_ok_inversion (auditOk commitOk : Bool) (s : BankState)
    (uid said raid : Nat) (amount : ℚ) (d : Option String) (r : TransferResult) :
    (internal_transfer auditOk commitOk s uid said raid amount d).1 = .ok r →
    ∃ sender receiver,
      getAccount s said = some sender ∧ getAccount s raid = some receiver ∧
      0 < amount ∧ sender.user_id = uid ∧ receiver.user_id = uid ∧
      sender.status = .active ∧ receiver.status = .active ∧
      amount ≤ sender.balance ∧ commitOk = true := by
  rcases hcall : internal_transfer auditOk commitOk s uid said raid amount d with ⟨res, s2⟩
  intro hok
  simp only at hok
  unfold internal_transfer at hcall
  split at hcall
  · rw [Prod.mk.injEq] at hcall
    rw [← hcall.1] at hok
    simp at hok
  · rename_i hamt
    split at hcall
    · rw [Prod.mk.injEq] at hcall
      rw [← hcall.1] at hok
      simp at hok
    · rw [Prod.mk.injEq] at hcall
      rw [← hcall.1] at hok
      simp at hok
    · rename_i sender receiver hs hr
      split_ifs at hcall with h2 h3 h4 h5 h6
      · rw [Prod.mk.injEq] at hcall
        rw [← hcall.1] at hok
        simp at hok
      · rw [Prod.mk.injEq] at hcall
        rw [← hcall.1] at hok
        simp at hok
      · rw [Prod.mk.injEq] at hcall
        rw [← hcall.1] at hok
        simp at hok
      · rw [Prod.mk.injEq] at hcall
        rw [← hcall.1] at hok
        simp at hok
      · push_neg at h2
        refine ⟨sender, receiver, hs, hr, not_le.mp hamt, h2.1, h2.2, ?_, ?_, not_lt.mp h5, h6⟩
        · by_contra hc
          exact h3 hc
        · by_contra hc
          exact h4 hc
      · rw [Prod.mk.injEq] at hcall
        rw [← hcall.1] at hok
        simp at hok

lemma internal_transfer_getAccount_other (auditOk commitOk : Bool) (s : BankState)
    (uid said raid : Nat) (amount : ℚ) (d : Option String) (j : Nat)
    (hjs : j ≠ said) (hjr : j ≠ raid) :
    getAccount (internal_transfer auditOk commitOk s uid said raid amount d).2 j =
      getAccount s j := by
  cases hres : (internal_transfer auditOk commitOk s uid said raid amount d).1 with
  | error e =>
    obtain ⟨ha, _⟩ := internal_transfer_error_frame auditOk commitOk s uid said raid
      amount d e hres
    unfold getAccount
    rw [ha]
  | ok r =>
    obtain ⟨sender, receiver, hs, hr, hpos, howns, hownr, hsst, hrst, hbal, hcommit⟩ :=
      internal_transfer_ok_inversion auditOk commitOk s uid said raid amount d r hres
    subst hcommit
    rw [internal_transfer_ok_getAccount auditOk s uid said raid amount d sender receiver
      hs hr hpos howns hownr hsst hrst hbal j]
    cases hj : getAccount s j with
    | none => rfl
    | some a =>
      have h' : List.find? (fun a => a.id == j) s.accounts = some a := hj
      have ha0 := List.find?_some h'
      have haj : a.id = j := by simpa using ha0
      have h1 : ¬ a.id = said := by rw [haj]; exact hjs
      have h2 : ¬ a.id = raid := by rw [haj]; exact hjr
      simp [h1, h2]

lemma WF_step (s : BankState) (c : Cmd) (hwf : WF s) : WF (step s c) :=
  WF_internal_transfer c.auditOk c.commitOk s c.uid c.said c.raid c.amount
    c.description hwf

lemma totalBalance_step (s : BankState) (c : Cmd) (hwf : WF s) :
    totalBalance (step s c) = totalBalance s :=
  internal_transfer_totalBalance c.auditOk c.commitOk s c.uid c.said c.raid c.amount
    c.description hwf

lemma totalBalance_runTransfers (cs : List Cmd) : ∀ s : BankState, WF s →
    totalBalance (runTransfers s cs) = totalBalance s := by
  induction cs with
  | nil => intro s _; rfl
  | cons c t ih =>
    intro s hwf
    show totalBalance (runTransfers (step s c) t) = totalBalance s
    rw [ih (step s c) (WF_step s c hwf), totalBalance_step s c hwf]

/-- Claim C1 as amended: under the exact-decimal idealization of the
balance arithmetic (internal_transfer over rationals), any sequence of
internal_transfer calls — successful or failed, with or without audit
or commit failures — leaves the sum of all account balances unchanged;
each successful call on distinct accounts debits the sender account by
exactly the amount and credits the receiver account by exactly the
amount; and no call ever changes the balance of an account other than
the two named ones.  Under the binary64 arithmetic the source actually
performs these exactness properties fail: see
c1_counterexample_float_drift. -/
theorem c1_internal_transfer_conservation (s : BankState) (hwf : WF s) :
    (∀ cs : List Cmd, totalBalance (runTransfers s cs) = totalBalance s) ∧
    (∀ (c : Cmd) (j : Nat), j ≠ c.said → j ≠ c.raid →
      getAccount (step s c) j = getAccount s j) ∧
    (∀ (c : Cmd) (r : TransferResult) (sender receiver : Account),
      c.said ≠ c.raid →
      (internal_transfer c.auditOk c.commitOk s c.uid c.said c.raid c.amount
        c.description).1 = .ok r →
      getAccount s c.said = some sender → getAccount s c.raid = some receiver →
      getAccount (step s c) c.said =
        some { sender with balance := sender.balance - c.amount, updated_at := s.now } ∧
      getAccount (step s c) c.raid =
        some { receiver with balance := receiver.balance + c.amount, updated_at := s.now }) := by
  refine ⟨fun cs => totalBalance_runTransfers cs s hwf, ?_, ?_⟩
  · intro c j hjs hjr
    exact internal_transfer_getAccount_other c.auditOk c.commitOk s c.uid c.said c.raid
      c.amount c.description j hjs hjr
  · intro c r sender receiver hne hok hs hr
    obtain ⟨sender', receiver', hs', hr', hpos, howns, hownr, hsst, hrst, hbal, hcommit⟩ :=
      internal_transfer_ok_inversion c.auditOk c.commitOk s c.uid c.said c.raid
        c.amount c.description r hok
    rw [hs] at hs'
    rw [hr] at hr'
    injection hs' with hsher
    injection hr' with hrher
    subst hsher
    subst hrher
    have hfs : List.find? (fun a => a.id == c.said) s.accounts = some sender := hs
    have hfr : List.find? (fun a => a.id == c.raid) s.accounts = some receiver := hr
    have hsid : sender.id = c.said := by simpa using List.find?_some hfs
    have hrid : receiver.id = c.raid := by simpa using List.find?_some hfr
    have hstep : step s c =
        (internal_transfer c.auditOk true s c.uid c.said c.raid c.amount
          c.description).2 := by
      unfold step
      rw [hcommit]
    constructor
    · rw [hstep, internal_transfer_ok_getAccount c.auditOk s c.uid c.said c.raid c.amount
        c.description sender receiver hs hr hpos howns hownr hsst hrst hbal c.said, hs]
      simp [hsid, hrid, hne, Ne.symm hne]
    · rw [hstep, internal_transfer_ok_getAccount c.auditOk s c.uid c.said c.raid c.amount
        c.description sender receiver hs hr hpos howns hownr hsst hrst hbal c.raid, hr]
      simp [hsid, hrid, hne, Ne.symm hne]

/-- Witness for C1 at a concrete store and a concrete transfer
sequence. -/
theorem c1_internal_transfer_conservation_witness :
    WF demoState ∧
    totalBalance (runTransfers demoState
      [{ auditOk := true, commitOk := true, uid := 10, said := 1, raid := 2,
         amount := 200, description := none }]) = totalBalance demoState :=
  ⟨by decide, (c1_internal_transfer_conservation demoState (by decide)).1 _⟩

/-- Claim C2: a transfer (internal or external) that fails — at any
validation step or at commit — leaves every account row (hence every
balance and every status) and the transaction table exactly as they
were; only the audit log may grow. -/
theorem c2_failed_transfer_unchanged (auditOk commitOk : Bool) (s : BankState)
    (uid said raid : Nat) (rnum : String) (amount : ℚ) (d : Option String) :
    (∀ e : TransferError,
      (internal_transfer auditOk commitOk s uid said raid amount d).1 = .error e →
      (internal_transfer auditOk commitOk s uid said raid amount d).2.accounts =
        s.accounts ∧
      (internal_transfer auditOk commitOk s uid said raid amount d).2.transactions =
        s.transactions) ∧
    (∀ e : TransferError,
      (external_transfer auditOk commitOk s uid said rnum amount d).1 = .error e →
      (external_transfer auditOk commitOk s uid said rnum amount d).2.accounts =
        s.accounts ∧
      (external_transfer auditOk commitOk s uid said rnum amount d).2.transactions =
        s.transactions) :=
  ⟨fun e => internal_transfer_error_frame auditOk commitOk s uid said raid amount d e,
   fun e => external_transfer_error_frame auditOk commitOk s uid said rnum amount d e⟩

/-- Witness for C2: a rejected internal transfer (non-positive amount)
at the demo store changes neither the accounts nor the transactions. -/
theorem c2_failed_transfer_unchanged_witness :
    (internal_transfer true true demoState 10 1 2 (-1) none).1 =
      .error .invalidAmount ∧
    (internal_transfer true true demoState 10 1 2 (-1) none).2.accounts =
      demoState.accounts := by
  have h : (internal_transfer true true demoState 10 1 2 (-1) none).1 =
      .error .invalidAmount := rfl
  exact ⟨h,
    ((c2_failed_transfer_unchanged true true demoState 10 1 2 "ACC-0000000002" (-1)
      none).1 .invalidAmount h).1⟩

lemma external_transfer_ok_inversion (auditOk commitOk : Bool) (s : BankState)
    (uid said : Nat) (rnum : String) (amount : ℚ) (d : Option String)
    (r : TransferResult) :
    (external_transfer auditOk commitOk s uid said rnum amount d).1 = .ok r →
    ∃ sender receiver,
      getAccount s said = some sender ∧ getAccountByNumber s rnum = some receiver ∧
      0 < amount ∧ sender.user_id = uid ∧
      sender.status = .active ∧ receiver.status = .active ∧
      amount ≤ sender.balance ∧ commitOk = true := by
  rcases hcall : external_transfer auditOk commitOk s uid said rnum amount d with ⟨res, s2⟩
  intro hok
  simp only at hok
  unfold external_transfer at hcall
  split at hcall
  · rw [Prod.mk.injEq] at hcall
    rw [← hcall.1] at hok
    simp at hok
  · rename_i hamt
    split at hcall
    · rw [Prod.mk.injEq] at hcall
      rw [← hcall.1] at hok
      simp at hok
    · rename_i sender hs
      split at hcall
      · rw [Prod.mk.injEq] at hcall
        rw [← hcall.1] at hok
        simp at hok
      · rename_i h2
        split at hcall
        · rw [Prod.mk.injEq] at hcall
          rw [← hcall.1] at hok
          simp at hok
        · rename_i h3
          split at hcall
          · rw [Prod.mk.injEq] at hcall
            rw [← hcall.1] at hok
            simp at hok
          · rename_i receiver hrn
            split at hcall
            · rw [Prod.mk.injEq] at hcall
              rw [← hcall.1] at hok
              simp at hok
            · rename_i h4
              split at hcall
              · rw [Prod.mk.injEq] at hcall
                rw [← hcall.1] at hok
                simp at hok
              · rename_i h5
                split at hcall
                · rename_i h6
                  refine ⟨sender, receiver, hs, hrn, not_le.mp hamt, ?_, ?_, ?_,
                    not_lt.mp h5, h6⟩
                  · by_contra hc
                    exact h2 hc
                  · by_contra hc
                    exact h3 hc
                  · by_contra hc
                    exact h4 hc
                · rw [Prod.mk.injEq] at hcall
                  rw [← hcall.1] at hok
                  simp at hok

/-- Counterexample for C3: a successful internal transfer on the demo
store creates two rows whose transaction ids DIFFER (each row draws a
fresh id from the unique-id supply), contradicting the claim that the
DEBIT and CREDIT rows share the same transaction_id. -/
theorem c3_counterexample_distinct_ids :
    exceptIsOk (internal_transfer true true demoState 10 1 2 200 none).1 = true ∧
    (internal_transfer true true demoState 10 1 2 200 none).2.transactions =
      [debitRow 0 10 1 2 200 "Internal transfer" 1,
       creditRow 1 10 1 2 200 "Internal transfer" 1] ∧
    (debitRow 0 10 1 2 200 "Internal transfer" 1).transaction_id ≠
      (creditRow 1 10 1 2 200 "Internal transfer" 1).transaction_id := by
  refine ⟨rfl, ?_, by decide⟩
  rfl

/-- Claim C3 as amended: every successful transfer appends exactly two
transaction rows — one DEBIT and one CREDIT — sharing sender_id,
sender_account_id, receiver_account_id, amount, description and
created_at, but carrying two distinct freshly drawn transaction ids;
the result reports the DEBIT row id. -/
theorem c3_amended_transaction_pair (auditOk commitOk : Bool) (s : BankState)
    (uid said raid : Nat) (rnum : String) (amount : ℚ) (d : Option String) :
    (∀ r : TransferResult,
      (internal_transfer auditOk commitOk s uid said raid amount d).1 = .ok r →
      (internal_transfer auditOk commitOk s uid said raid amount d).2.transactions =
        s.transactions ++
          [debitRow s.nextTxId uid said raid amount (d.getD "Internal transfer") s.now,
           creditRow (s.nextTxId + 1) uid said raid amount
             (d.getD "Internal transfer") s.now] ∧
      r.transaction_id = s.nextTxId) ∧
    (∀ r : TransferResult,
      (external_transfer auditOk commitOk s uid said rnum amount d).1 = .ok r →
      ∃ receiver, getAccountByNumber s rnum = some receiver ∧
        (external_transfer auditOk commitOk s uid said rnum amount d).2.transactions =
          s.transactions ++
            [debitRow s.nextTxId uid said receiver.id amount
               (d.getD "External transfer") s.now,
             creditRow (s.nextTxId + 1) uid said receiver.id amount
               (d.getD "External transfer") s.now] ∧
        r.transaction_id = s.nextTxId) ∧
    s.nextTxId ≠ s.nextTxId + 1 := by
  refine ⟨?_, ?_, by omega⟩
  · intro r hok
    obtain ⟨sender, receiver, hs, hr, hpos, howns, hownr, hsst, hrst, hbal, hcommit⟩ :=
      internal_transfer_ok_inversion auditOk commitOk s uid said raid amount d r hok
    subst hcommit
    refine ⟨internal_transfer_ok_transactions auditOk s uid said raid amount d sender
      receiver hs hr hpos howns hownr hsst hrst hbal, ?_⟩
    have hres := internal_transfer_ok_result auditOk s uid said raid amount d sender
      receiver hs hr hpos howns hownr hsst hrst hbal
    rw [hok] at hres
    injection hres with hr2
    rw [hr2]
  · intro r hok
    obtain ⟨sender, receiver, hs, hrn, hpos, howns, hsst, hrst, hbal, hcommit⟩ :=
      external_transfer_ok_inversion auditOk commitOk s uid said rnum amount d r hok
    subst hcommit
    refine ⟨receiver, hrn,
      external_transfer_ok_transactions auditOk s uid said rnum amount d sender
        receiver hs hrn hpos howns hsst hrst hbal, ?_⟩
    have h1 : ¬ amount ≤ 0 := not_le.mpr hpos
    have h2 : ¬ sender.user_id ≠ uid := by simp [howns]
    have h3 : ¬ sender.status ≠ AccountStatus.active := by simp [hsst]
    have h4 : ¬ receiver.status ≠ AccountStatus.active := by simp [hrst]
    have h5 : ¬ sender.balance < amount := not_lt.mpr hbal
    have hres : (external_transfer auditOk true s uid said rnum amount d).1 =
        .ok { transaction_id := s.nextTxId
              sender_account := sender.account_number
              receiver_account := receiver.account_number
              amount := amount
              created_at := s.now } := by
      simp only [external_transfer, hs, hrn, h1, h2, h3, h4, h5, if_false, ite_false,
        not_false_iff, if_true, ite_true]
    rw [hok] at hres
    injection hres with hr2
    rw [hr2]

/-- Witness for C3 as amended, at the demo store. -/
theorem c3_amended_transaction_pair_witness :
    (internal_transfer true true demoState 10 1 2 200 none).2.transactions =
      demoState.transactions ++
        [debitRow demoState.nextTxId 10 1 2 200 "Internal transfer" demoState.now,
         creditRow (demoState.nextTxId + 1) 10 1 2 200 "Internal transfer"
           demoState.now] ∧
    ({ transaction_id := 0, sender_account := "ACC-0000000001",
       receiver_account := "ACC-0000000002",
       amount := 200, created_at := 1 } : TransferResult).transaction_id =
      demoState.nextTxId := by
  have h : (internal_transfer true true demoState 10 1 2 200 none).1 =
      .ok { transaction_id := 0, sender_account := "ACC-0000000001",
            receiver_account := "ACC-0000000002", amount := 200, created_at := 1 } := rfl
  have := (c3_amended_transaction_pair true true demoState 10 1 2
    "ACC-0000000002" 200 none).1 _ h
  exact ⟨this.1, this.2⟩

lemma log_audit_auditLog (b : Bool) (s : BankState) (e : AuditEntry) :
    (log_audit b s e).auditLog = s.auditLog ++ (if b then [e] else []) := by
  cases b <;> simp [log_audit]

/-- Claim C4: internal_transfer checks its six preconditions in the
spec order, the first violated one determines the returned error, and
exactly the ownership and insufficient-balance failures append one
SUSPICIOUS_ACTIVITY audit entry (none of the other failures touch the
audit log). -/
theorem c4_internal_validation_order (auditOk : Bool) (s : BankState)
    (uid said raid : Nat) (amount : ℚ) (d : Option String) :
    (specFirstViolation s uid said raid amount = none →
      exceptIsOk (internal_transfer auditOk true s uid said raid amount d).1 = true) ∧
    (∀ v : Violation, specFirstViolation s uid said raid amount = some v →
      (internal_transfer auditOk true s uid said raid amount d).1 =
        .error (errorOfViolation v) ∧
      (internal_transfer auditOk true s uid said raid amount d).2.auditLog =
        s.auditLog ++ auditDeltaOfViolation auditOk uid amount v) := by
  constructor
  · intro hnone
    unfold specFirstViolation at hnone
    split at hnone
    · simp at hnone
    · split at hnone
      · simp at hnone
      · simp at hnone
      · rename_i sender receiver hs hr
        have hamt : ¬ amount ≤ 0 := by assumption
        split_ifs at hnone with h2 h3 h4 h5
        push_neg at h2
        rw [internal_transfer_ok_result auditOk s uid said raid amount d sender
          receiver hs hr (not_le.mp hamt) h2.1 h2.2 (by by_contra hc; exact h3 hc)
          (by by_contra hc; exact h4 hc) (not_lt.mp h5)]
        rfl
  · intro v hv
    unfold specFirstViolation at hv
    split at hv
    · rename_i hamt
      injection hv with hv2
      subst hv2
      constructor
      · simp [internal_transfer, hamt, errorOfViolation]
      · simp [internal_transfer, hamt, auditDeltaOfViolation]
    · split at hv
      · rename_i hs
        have hamt : ¬ amount ≤ 0 := by assumption
        injection hv with hv2
        subst hv2
        constructor
        · simp [internal_transfer, hamt, hs, errorOfViolation]
        · simp [internal_transfer, hamt, hs, auditDeltaOfViolation]
      · rename_i a hsx hr
        have hamt : ¬ amount ≤ 0 := by assumption
        injection hv with hv2
        subst hv2
        constructor
        · simp [internal_transfer, hamt, hsx, hr, errorOfViolation]
        · simp [internal_transfer, hamt, hsx, hr, auditDeltaOfViolation]
      · rename_i sender receiver hs hr
        have hamt : ¬ amount ≤ 0 := by assumption
        split_ifs at hv with h2 h3 h4 h5
        · injection hv with hv2
          subst hv2
          constructor
          · simp [internal_transfer, hamt, hs, hr, h2, errorOfViolation]
          · simp [internal_transfer, hamt, hs, hr, h2, auditDeltaOfViolation,
              log_audit_auditLog]
        · injection hv with hv2
          subst hv2
          constructor
          · simp [internal_transfer, hamt, hs, hr, h2, h3, errorOfViolation]
          · simp [internal_transfer, hamt, hs, hr, h2, h3, auditDeltaOfViolation]
        · injection hv with hv2
          subst hv2
          constructor
          · simp [internal_transfer, hamt, hs, hr, h2, h3, h4, errorOfViolation]
          · simp [internal_transfer, hamt, hs, hr, h2, h3, h4, auditDeltaOfViolation]
        · injection hv with hv2
          subst hv2
          constructor
          · simp [internal_transfer, hamt, hs, hr, h2, h3, h4, h5, errorOfViolation]
          · simp [internal_transfer, hamt, hs, hr, h2, h3, h4, h5,
              auditDeltaOfViolation, log_audit_auditLog]

/-- Witness for C4: an internal transfer from account 1 (owner 10) to
account 4 (owner 20), attempted by user 10, is an ownership violation;
it fails with that error and appends one SUSPICIOUS_ACTIVITY entry. -/
theorem c4_internal_validation_order_witness :
    specFirstViolation demoState 10 1 4 50 = some .ownershipViolation ∧
    (internal_transfer true true demoState 10 1 4 50 none).1 =
      .error (errorOfViolation .ownershipViolation) ∧
    (internal_transfer true true demoState 10 1 4 50 none).2.auditLog =
      demoState.auditLog ++ auditDeltaOfViolation true 10 50 .ownershipViolation := by
  have h : specFirstViolation demoState 10 1 4 50 = some .ownershipViolation := rfl
  have h2 := (c4_internal_validation_order true demoState 10 1 4 50 none).2 _ h
  exact ⟨h, h2.1, h2.2⟩

/-- Claim C5: close_account succeeds exactly when the account exists
and its balance is exactly zero; on success the status becomes CLOSED,
and on a nonzero balance it fails with the balance-not-zero error and
the account row is unchanged. -/
theorem c5_close_account_zero_balance (auditOk : Bool) (s : BankState)
    (accId adminId : Nat) :
    (exceptIsOk (close_account auditOk true s accId adminId).1 = true ↔
      ∃ acc, getAccount s accId = some acc ∧ acc.balance = 0) ∧
    (∀ acc, getAccount s accId = some acc →
      getAccount (close_account auditOk true s accId adminId).2 accId =
        some (if acc.balance = 0 then
          { acc with status := .closed, updated_at := s.now } else acc)) ∧
    (∀ acc, getAccount s accId = some acc → acc.balance ≠ 0 →
      (close_account auditOk true s accId adminId).1 = .error .balanceNotZero) := by
  rcases hacc : getAccount s accId with _ | acc
  · refine ⟨?_, ?_, ?_⟩
    · simp only [close_account, hacc]
      constructor
      · intro h
        simp [exceptIsOk] at h
      · rintro ⟨acc, hacc2, _⟩
        simp at hacc2
    · intro acc hacc2
      simp at hacc2
    · intro acc hacc2
      simp at hacc2
  · by_cases hbal : acc.balance = 0
    · have hb2 : ¬ acc.balance ≠ 0 := by simp [hbal]
      refine ⟨?_, ?_, ?_⟩
      · simp only [close_account, hacc, hb2, ite_false, if_false, not_false_iff]
        constructor
        · intro _
          exact ⟨acc, rfl, hbal⟩
        · intro _
          rfl
      · intro acc2 hacc2
        injection hacc2 with he
        subst he
        simp only [close_account, hacc, hb2, ite_false, if_false, not_false_iff,
          ite_true, if_true]
        rw [getAccount_log_audit]
        rw [getAccount_updateAccount_self s accId
          (fun a => { a with status := .closed, updated_at := s.now }) (fun _ => rfl)
          acc hacc]
        rw [if_pos hbal]
      · intro acc2 hacc2 hbal2
        injection hacc2 with he
        subst he
        exact absurd hbal hbal2
    · refine ⟨?_, ?_, ?_⟩
      · constructor
        · intro h
          simp [close_account, hacc, hbal, exceptIsOk] at h
        · rintro ⟨acc2, hacc2, hb2⟩
          injection hacc2 with he
          subst he
          exact absurd hb2 hbal
      · intro acc2 hacc2
        injection hacc2 with he
        subst he
        simp [close_account, hacc, hbal]
      · intro acc2 hacc2 _
        simp [close_account, hacc, hbal]

/-- Witness for C5 at the demo store: account 5 (balance 0) closes
successfully; account 4 (balance one cent) is rejected with
balance-not-zero. -/
theorem c5_close_account_zero_balance_witness :
    exceptIsOk (close_account true true demoState 5 99).1 = true ∧
    (close_account true true demoState 4 99).1 = .error .balanceNotZero := by
  have h5 : getAccount demoState 5 = some accountE := rfl
  have h4 : getAccount demoState 4 = some accountD := rfl
  exact ⟨(c5_close_account_zero_balance true demoState 5 99).1.mpr ⟨accountE, h5, rfl⟩,
    (c5_close_account_zero_balance true demoState 4 99).2.2 accountD h4
      (by norm_num [accountD])⟩

/-- Counterexample for C6: on the demo store, account 3 is CLOSED with
balance 0, yet freeze_account succeeds on it and moves its status to
FROZEN — CLOSED is not terminal in the code. -/
theorem c6_counterexample_freeze_closed :
    getAccount demoState 3 = some accountC ∧
    accountC.status = .closed ∧
    exceptIsOk (freeze_account true true demoState 3 99).1 = true ∧
    (getAccount (freeze_account true true demoState 3 99).2 3).map
      (fun a => a.status) = some .frozen := by
  exact ⟨rfl, rfl, rfl, rfl⟩

/-- Claim C6 as amended: CLOSED is not terminal.  freeze_account
rejects only FROZEN accounts, so it moves a CLOSED account to FROZEN;
unfreeze_account does reject a CLOSED account (NotFrozen), and no
transfer — internal or external — can succeed with a CLOSED account on
either side (as sender, as internal receiver looked up by id, or as
external receiver looked up by account number). -/
theorem c6_amended_closed_not_terminal (auditOk : Bool) (s : BankState)
    (accId adminId : Nat) :
    (∀ acc, getAccount s accId = some acc → acc.status = .closed →
      (freeze_account auditOk true s accId adminId).1 =
        .ok { account_id := acc.id, account_number := acc.account_number,
              status := .frozen } ∧
      getAccount (freeze_account auditOk true s accId adminId).2 accId =
        some { acc with status := .frozen, updated_at := s.now }) ∧
    (∀ acc, getAccount s accId = some acc → acc.status = .closed →
      (unfreeze_account auditOk true s accId adminId).1 = .error .notFrozen) ∧
    (∀ (commitOk : Bool) (uid raid : Nat) (amount : ℚ) (d : Option String)
        (r : TransferResult) acc,
      getAccount s accId = some acc → acc.status = .closed →
      (internal_transfer auditOk commitOk s uid accId raid amount d).1 ≠ .ok r ∧
      (internal_transfer auditOk commitOk s uid raid accId amount d).1 ≠ .ok r) ∧
    (∀ (commitOk : Bool) (uid : Nat) (rnum : String) (amount : ℚ)
        (d : Option String) (r : TransferResult) acc,
      getAccount s accId = some acc → acc.status = .closed →
      (external_transfer auditOk commitOk s uid accId rnum amount d).1 ≠ .ok r) ∧
    (∀ (commitOk : Bool) (uid said : Nat) (rnum : String) (amount : ℚ)
        (d : Option String) (r : TransferResult) acc,
      getAccountByNumber s rnum = some acc → acc.status = .closed →
      (external_transfer auditOk commitOk s uid said rnum amount d).1 ≠ .ok r) := by
  refine ⟨?_, ?_, ?_, ?_, ?_⟩
  · intro acc hacc hst
    have hfr : ¬ acc.status = AccountStatus.frozen := by
      rw [hst]
      intro hc
      cases hc
    constructor
    · simp only [freeze_account, hacc, hfr, ite_false, if_false, not_false_iff,
        ite_true, if_true]
    · simp only [freeze_account, hacc, hfr, ite_false, if_false, not_false_iff,
        ite_true, if_true]
      rw [getAccount_log_audit]
      exact getAccount_updateAccount_self s accId
        (fun a => { a with status := .frozen, updated_at := s.now }) (fun _ => rfl)
        acc hacc
  · intro acc hacc hst
    have hfr : acc.status ≠ AccountStatus.frozen := by
      rw [hst]
      intro hc
      cases hc
    simp [unfreeze_account, hacc, hfr]
  · intro commitOk uid raid amount d r acc hacc hst
    constructor
    · intro hok
      obtain ⟨sender, _, hs, _, _, _, _, hsst, _, _, _⟩ :=
        internal_transfer_ok_inversion auditOk commitOk s uid accId raid amount d r hok
      rw [hacc] at hs
      injection hs with he
      subst he
      rw [hst] at hsst
      cases hsst
    · intro hok
      obtain ⟨_, receiver, _, hr, _, _, _, _, hrst, _, _⟩ :=
        internal_transfer_ok_inversion auditOk commitOk s uid raid accId amount d r hok
      rw [hacc] at hr
      injection hr with he
      subst he
      rw [hst] at hrst
      cases hrst
  · intro commitOk uid rnum amount d r acc hacc hst hok
    obtain ⟨sender, _, hs, _, _, _, hsst, _, _, _⟩ :=
      external_transfer_ok_inversion auditOk commitOk s uid accId rnum amount d r hok
    rw [hacc] at hs
    injection hs with he
    subst he
    rw [hst] at hsst
    cases hsst
  · intro commitOk uid said rnum amount d r acc hacc hst hok
    obtain ⟨_, receiver, _, hrn, _, _, _, hrst, _, _⟩ :=
      external_transfer_ok_inversion auditOk commitOk s uid said rnum amount d r hok
    rw [hacc] at hrn
    injection hrn with he
    subst he
    rw [hst] at hrst
    cases hrst

/-- Witness for C6 as amended, at the demo store (CLOSED account 3). -/
theorem c6_amended_closed_not_terminal_witness :
    (freeze_account true true demoState 3 99).1 =
      .ok { account_id := 3, account_number := "ACC-0000000003", status := .frozen } ∧
    (unfreeze_account true true demoState 3 99).1 = .error .notFrozen := by
  have h : getAccount demoState 3 = some accountC := rfl
  exact ⟨((c6_amended_closed_not_terminal true demoState 3 99).1 accountC h rfl).1,
    (c6_amended_closed_not_terminal true demoState 3 99).2.1 accountC h rfl⟩

lemma retry_loop_all_taken_none (gen : Nat → String) : ∀ (fuel i : Nat),
    account_number_retry_loop (fun _ => true) gen i fuel = none := by
  intro fuel
  induction fuel with
  | zero => intro i; rfl
  | succ n ih =>
    intro i
    simp only [account_number_retry_loop, if_true, ite_true]
    exact ih (i + 1)

lemma retry_loop_reaches_fresh (taken : String → Bool) (gen : Nat → String) :
    ∀ j i, taken (gen (i + j)) = false →
      ∃ n, account_number_retry_loop taken gen i (j + 1) = some n ∧ taken n = false := by
  intro j
  induction j with
  | zero =>
    intro i h
    rw [Nat.add_zero] at h
    refine ⟨gen i, ?_, h⟩
    simp only [account_number_retry_loop, h]
    rfl
  | succ n ih =>
    intro i h
    by_cases ht : taken (gen i) = true
    · have h' : taken (gen ((i + 1) + n)) = false := by
        have harith : (i + 1) + n = i + (n + 1) := by omega
        rw [harith]
        exact h
      obtain ⟨m, hm, hmf⟩ := ih (i + 1) h'
      refine ⟨m, ?_, hmf⟩
      simp only [account_number_retry_loop, ht, if_true, ite_true]
      exact hm
    · have hf : taken (gen i) = false := by simpa using ht
      refine ⟨gen i, ?_, hf⟩
      simp only [account_number_retry_loop, hf]
      rfl

/-- Counterexample for C7: the uniqueness retry loop of create_account
has NO iteration bound and no fatal-allocation-error arm: for every
claimed bound B there is a collision pattern (every draw already taken)
under which the loop is still running after B iterations, having
produced neither a result nor an error. -/
theorem c7_counterexample_unbounded_retry :
    ¬ ∃ B : Nat, ∀ (taken : String → Bool) (gen : Nat → String),
      account_number_retry_loop taken gen 0 B ≠ none := by
  rintro ⟨B, hB⟩
  exact hB (fun _ => true) (fun _ => "ACC-0000000000")
    (retry_loop_all_taken_none (fun _ => "ACC-0000000000") B 0)

/-- Claim C7 as amended: the retry loop carries no upper bound and no
fatal allocation error.  It terminates exactly when the draw stream
eventually produces a number not in the store (returning the first
such number), and under total collision it runs forever, returning
nothing for every amount of fuel. -/
theorem c7_amended_retry_unbounded :
    (∀ (taken : String → Bool) (gen : Nat → String) (j : Nat),
      taken (gen j) = false →
      ∃ n, account_number_retry_loop taken gen 0 (j + 1) = some n ∧
        taken n = false) ∧
    (∀ (gen : Nat → String) (fuel : Nat),
      account_number_retry_loop (fun _ => true) gen 0 fuel = none) := by
  constructor
  · intro taken gen j h
    refine retry_loop_reaches_fresh taken gen j 0 ?_
    rw [Nat.zero_add]
    exact h
  · intro gen fuel
    exact retry_loop_all_taken_none gen fuel 0

/-- Witness for C7 as amended: with a never-colliding store the loop
returns the first draw. -/
theorem c7_amended_retry_unbounded_witness :
    ∃ n, account_number_retry_loop (fun _ => false)
      (fun _ => "ACC-0000000009") 0 1 = some n ∧ (fun _ : String => false) n = false :=
  c7_amended_retry_unbounded.1 (fun _ => false) (fun _ => "ACC-0000000009") 0 rfl

end Bank

namespace Schema

/-- Claim C8 (code bug): models.py declares Account.balance,
Account.opening_balance and Transaction.amount as db.Float — binary
floating point — not as a fixed-point or decimal column, so the
decimal-exactness requirement of the spec is violated by the schema
itself. -/
theorem c8_monetary_columns_are_float :
    accountBalanceColumn = .float ∧
    accountOpeningBalanceColumn = .float ∧
    transactionAmountColumn = .float ∧
    ¬ monetaryFieldsAreDecimal := by
  refine ⟨rfl, rfl, rfl, ?_⟩
  rintro ⟨h, _, _⟩
  exact absurd h (by decide)

end Schema

namespace Bank

/-- Claim C9: a failing audit write never changes the outcome of a
transfer — result value, accounts table and transactions table are
identical whether the audit sink works or fails — and a transfer can
only report success when its own commit succeeded (the TRANSFER audit
entry is written strictly after the commit). -/
theorem c9_audit_failure_never_changes_outcome (commitOk : Bool) (s : BankState)
    (uid said raid : Nat) (rnum : String) (amount : ℚ) (d : Option String) :
    ((internal_transfer true commitOk s uid said raid amount d).1 =
        (internal_transfer false commitOk s uid said raid amount d).1 ∧
      (internal_transfer true commitOk s uid said raid amount d).2.accounts =
        (internal_transfer false commitOk s uid said raid amount d).2.accounts ∧
      (internal_transfer true commitOk s uid said raid amount d).2.transactions =
        (internal_transfer false commitOk s uid said raid amount d).2.transactions) ∧
    ((external_transfer true commitOk s uid said rnum amount d).1 =
        (external_transfer false commitOk s uid said rnum amount d).1 ∧
      (external_transfer true commitOk s uid said rnum amount d).2.accounts =
        (external_transfer false commitOk s uid said rnum amount d).2.accounts ∧
      (external_transfer true commitOk s uid said rnum amount d).2.transactions =
        (external_transfer false commitOk s uid said rnum amount d).2.transactions) ∧
    (∀ (auditOk : Bool) (r : TransferResult),
      (internal_transfer auditOk commitOk s uid said raid amount d).1 = .ok r →
      commitOk = true) ∧
    (∀ (auditOk : Bool) (r : TransferResult),
      (external_transfer auditOk commitOk s uid said rnum amount d).1 = .ok r →
      commitOk = true) := by
  refine ⟨internal_transfer_audit_independence commitOk s uid said raid amount d,
    external_transfer_audit_independence commitOk s uid said rnum amount d, ?_, ?_⟩
  · intro a r h
    exact internal_transfer_ok_commit a commitOk s uid said raid amount d r h
  · intro a r h
    exact external_transfer_ok_commit a commitOk s uid said rnum amount d r h

/-- Witness for C9 at the demo store. -/
theorem c9_audit_failure_never_changes_outcome_witness :
    (internal_transfer true true demoState 10 1 2 200 none).1 =
      (internal_transfer false true demoState 10 1 2 200 none).1 :=
  (c9_audit_failure_never_changes_outcome true demoState 10 1 2 "ACC-0000000002"
    200 none).1.1

/-- Claim C10: internal_transfer allows sender = receiver.  With a
single ACTIVE account owned by the acting user and 0 < amount ≤
balance, the self transfer succeeds, the balance is unchanged (the
debit and the credit land on the same row), and the DEBIT/CREDIT pair
is still recorded. -/
theorem c10_self_transfer_allowed (auditOk : Bool) (s : BankState) (uid aid : Nat)
    (amount : ℚ) (d : Option String) (acc : Account)
    (hacc : getAccount s aid = some acc)
    (hown : acc.user_id = uid)
    (hst : acc.status = .active)
    (hpos : 0 < amount) (hbal : amount ≤ acc.balance) :
    (internal_transfer auditOk true s uid aid aid amount d).1 =
      .ok { transaction_id := s.nextTxId, sender_account := acc.account_number,
            receiver_account := acc.account_number, amount := amount,
            created_at := s.now } ∧
    (getAccount (internal_transfer auditOk true s uid aid aid amount d).2 aid).map
      (fun a => a.balance) = some acc.balance ∧
    (internal_transfer auditOk true s uid aid aid amount d).2.transactions =
      s.transactions ++
        [debitRow s.nextTxId uid aid aid amount (d.getD "Internal transfer") s.now,
         creditRow (s.nextTxId + 1) uid aid aid amount
           (d.getD "Internal transfer") s.now] := by
  refine ⟨internal_transfer_ok_result auditOk s uid aid aid amount d acc acc hacc hacc
      hpos hown hown hst hst hbal, ?_,
    internal_transfer_ok_transactions auditOk s uid aid aid amount d acc acc hacc hacc
      hpos hown hown hst hst hbal⟩
  rw [internal_transfer_ok_getAccount auditOk s uid aid aid amount d acc acc hacc hacc
    hpos hown hown hst hst hbal aid, hacc]
  have hfind : List.find? (fun a => a.id == aid) s.accounts = some acc := hacc
  have hid : acc.id = aid := by simpa using List.find?_some hfind
  simp [hid]

/-- Witness for C10: a self transfer of 300 on account 1 of the demo
store succeeds and leaves the balance at 1000. -/
theorem c10_self_transfer_allowed_witness :
    (internal_transfer true true demoState 10 1 1 300 none).1 =
      .ok { transaction_id := 0, sender_account := "ACC-0000000001",
            receiver_account := "ACC-0000000001", amount := 300, created_at := 1 } ∧
    (getAccount (internal_transfer true true demoState 10 1 1 300 none).2 1).map
      (fun a => a.balance) = some accountA.balance := by
  have h : getAccount demoState 1 = some accountA := rfl
  have hc := c10_self_transfer_allowed true demoState 10 1 300 none accountA h rfl rfl
    (by norm_num) (by norm_num [accountA])
  exact ⟨hc.1, hc.2.1⟩

end Bank


namespace Bank

/-- Round half to even of a rational to an integer: the tie-breaking
rule binary64 arithmetic uses between two adjacent representable
values. -/
def rnEven (x : ℚ) : ℤ :=
  if x - ⌊x⌋ < 1/2 then ⌊x⌋
  else if 1/2 < x - ⌊x⌋ then ⌊x⌋ + 1
  else if ⌊x⌋ % 2 = 0 then ⌊x⌋ else ⌊x⌋ + 1

/-- IEEE-754 binary64 rounding (round to nearest, ties to even) of a
rational in the normal range: the nearest multiple of the unit in the
last place 2^(e - 52), where e = Int.log 2 of the magnitude, so that
2^e ≤ magnitude < 2^(e+1).  Overflow and subnormal thresholds lie far
outside the monetary magnitudes considered and are not modelled.
models.py stores balances as db.Float and Python evaluates
balance ± amount in binary64, so every stored balance update passes
through this rounding. -/
def roundB64 (q : ℚ) : ℚ :=
  if q = 0 then 0
  else (rnEven (q / (2 : ℚ) ^ (Int.log 2 |q| - 52)) : ℚ) *
    (2 : ℚ) ^ (Int.log 2 |q| - 52)

lemma rnEven_intCast (n : ℤ) : rnEven (n : ℚ) = n := by
  unfold rnEven
  rw [Int.floor_intCast]
  rw [sub_self]
  norm_num

lemma rnEven_add_half_of_even (n : ℤ) (hn : n % 2 = 0) :
    rnEven ((n : ℚ) + 1/2) = n := by
  unfold rnEven
  have hfl : ⌊(n : ℚ) + 1/2⌋ = n := by
    rw [add_comm, Int.floor_add_int]
    norm_num
  rw [hfl]
  have hr : ((n : ℚ) + 1/2) - n = 1/2 := by ring
  rw [hr]
  norm_num [hn]

lemma roundB64_one_add_ulp : roundB64 (1 + (2:ℚ)^(-53:ℤ)) = 1 := by
  have h53 : (2:ℚ)^(-53:ℤ) = 1 / 2^53 := by norm_num [zpow_neg]
  have hpos : (0:ℚ) < 1 + (2:ℚ)^(-53:ℤ) := by positivity
  have hq0 : (1 + (2:ℚ)^(-53:ℤ)) ≠ 0 := ne_of_gt hpos
  have habs : |1 + (2:ℚ)^(-53:ℤ)| = 1 + (2:ℚ)^(-53:ℤ) := abs_of_pos hpos
  have h1le : (1:ℚ) ≤ 1 + (2:ℚ)^(-53:ℤ) := by
    rw [h53]
    norm_num
  have hfl : ⌊(1 + (2:ℚ)^(-53:ℤ))⌋₊ = 1 := by
    rw [Nat.floor_eq_iff (by positivity : (0:ℚ) ≤ 1 + (2:ℚ)^(-53:ℤ))]
    rw [h53]
    constructor <;> norm_num
  have hlog : Int.log 2 (1 + (2:ℚ)^(-53:ℤ)) = 0 := by
    rw [Int.log_of_one_le_right 2 h1le, hfl, Nat.log_one_right]
    simp
  unfold roundB64
  rw [if_neg hq0, habs, hlog]
  have hexp : (0:ℤ) - 52 = -52 := by decide
  rw [hexp]
  have hdiv : (1 + (2:ℚ)^(-53:ℤ)) / (2:ℚ)^(-52:ℤ) = ((2^52 : ℤ) : ℚ) + 1/2 := by
    rw [h53, show (2:ℚ)^(-52:ℤ) = 1/2^52 by norm_num [zpow_neg]]
    push_cast
    norm_num
  rw [hdiv, rnEven_add_half_of_even (2^52) (by decide)]
  rw [show (2:ℚ)^(-52:ℤ) = 1/2^52 by norm_num [zpow_neg]]
  push_cast
  norm_num

lemma roundB64_ulp_self : roundB64 ((2:ℚ)^(-53:ℤ)) = (2:ℚ)^(-53:ℤ) := by
  have hpos : (0:ℚ) < (2:ℚ)^(-53:ℤ) := by positivity
  have hq0 : ((2:ℚ)^(-53:ℤ)) ≠ 0 := ne_of_gt hpos
  have habs : |(2:ℚ)^(-53:ℤ)| = (2:ℚ)^(-53:ℤ) := abs_of_pos hpos
  have hcast : ((2:ℕ):ℚ) = (2:ℚ) := by norm_num
  have hlog : Int.log 2 ((2:ℚ)^(-53:ℤ)) = -53 := by
    rw [← hcast]
    exact Int.log_zpow (by norm_num) (-53)
  unfold roundB64
  rw [if_neg hq0, habs, hlog]
  have hexp : (-53:ℤ) - 52 = -105 := by decide
  rw [hexp]
  have hdiv : (2:ℚ)^(-53:ℤ) / (2:ℚ)^(-105:ℤ) = ((2^52 : ℤ) : ℚ) := by
    rw [show (2:ℚ)^(-53:ℤ) = 1/2^53 by norm_num [zpow_neg],
        show (2:ℚ)^(-105:ℤ) = 1/2^105 by norm_num [zpow_neg]]
    push_cast
    norm_num
  rw [hdiv, rnEven_intCast]
  rw [show (2:ℚ)^(-105:ℤ) = 1/2^105 by norm_num [zpow_neg],
      show (2:ℚ)^(-53:ℤ) = 1/2^53 by norm_num [zpow_neg]]
  push_cast
  norm_num

/-- TransactionService.internal_transfer with the binary64 arithmetic
of the source made explicit: identical control flow, validation order,
audit behaviour and transaction rows as internal_transfer, but each
balance update stores the binary64 rounding of the exact result —
models.py declares the balance column db.Float and Python evaluates
`sender_account.balance -= amount` and `receiver_account.balance +=
amount` in IEEE-754 doubles.  (internal_transfer is the exact-decimal
idealization; the representation-independent claims are stated against
it, the representation-sensitive ones against this version.) -/
def internal_transfer_f (auditOk commitOk : Bool) (s : BankState)
    (sender_user_id sender_account_id receiver_account_id : Nat)
    (amount : ℚ) (description : Option String) :
    Except TransferError TransferResult × BankState :=
  if amount ≤ 0 then
    (.error .invalidAmount, s)
  else
    match getAccount s sender_account_id, getAccount s receiver_account_id with
    | none, _ => (.error .accountNotFound, s)
    | some _, none => (.error .accountNotFound, s)
    | some sender_account, some receiver_account =>
      if sender_account.user_id ≠ sender_user_id ∨
          receiver_account.user_id ≠ sender_user_id then
        (.error .ownershipViolation,
          log_audit auditOk s (ownershipAuditEntry sender_user_id))
      else if sender_account.status ≠ .active then
        (.error .senderNotActive, s)
      else if receiver_account.status ≠ .active then
        (.error .receiverNotActive, s)
      else if sender_account.balance < amount then
        (.error .insufficientBalance,
          log_audit auditOk s (insufficientAuditEntry sender_user_id amount))
      else
        let s1 := updateAccount s sender_account_id
          (fun a => { a with balance := roundB64 (a.balance - amount) })
        let s2 := updateAccount s1 receiver_account_id
          (fun a => { a with balance := roundB64 (a.balance + amount) })
        let debitTx : Transaction :=
          { transaction_id := s.nextTxId
            sender_id := sender_user_id
            sender_account_id := sender_account_id
            receiver_account_id := receiver_account_id
            amount := amount
            transaction_type := .debit
            description := description.getD "Internal transfer"
            created_at := s.now }
        let creditTx : Transaction :=
          { transaction_id := s.nextTxId + 1
            sender_id := sender_user_id
            sender_account_id := sender_account_id
            receiver_account_id := receiver_account_id
            amount := amount
            transaction_type := .credit
            description := description.getD "Internal transfer"
            created_at := s.now }
        let s3 := { s2 with transactions := s2.transactions ++ [debitTx, creditTx] }
        let s4 := updateAccount s3 sender_account_id
          (fun a => { a with updated_at := s.now })
        let s5 := updateAccount s4 receiver_account_id
          (fun a => { a with updated_at := s.now })
        if commitOk then
          let s6 := { s5 with nextTxId := s.nextTxId + 2 }
          (.ok { transaction_id := debitTx.transaction_id
                 sender_account := sender_account.account_number
                 receiver_account := receiver_account.account_number
                 amount := amount
                 created_at := debitTx.created_at },
            log_audit auditOk s6
              { user_id := sender_user_id
                action := .transfer
                resource_type := "transaction"
                resource_id := some debitTx.transaction_id
                details := "Internal transfer: " ++ toString amount ++ " from " ++
                  sender_account.account_number ++ " to " ++
                  receiver_account.account_number })
        else
          (.error .transferFailed, s)

lemma internal_transfer_f_ok_result (auditOk : Bool) (s : BankState)
    (uid said raid : Nat) (amount : ℚ) (d : Option String)
    (sender receiver : Account)
    (hs : getAccount s said = some sender)
    (hr : getAccount s raid = some receiver)
    (hpos : 0 < amount)
    (howns : sender.user_id = uid) (hownr : receiver.user_id = uid)
    (hsst : sender.status = .active) (hrst : receiver.status = .active)
    (hbal : amount ≤ sender.balance) :
    (internal_transfer_f auditOk true s uid said raid amount d).1 =
      .ok { transaction_id := s.nextTxId
            sender_account := sender.account_number
            receiver_account := receiver.account_number
            amount := amount
            created_at := s.now } := by
  have h1 : ¬ amount ≤ 0 := not_le.mpr hpos
  have h2 : ¬ (sender.user_id ≠ uid ∨ receiver.user_id ≠ uid) := by
    simp [howns, hownr]
  have h3 : ¬ sender.status ≠ AccountStatus.active := by simp [hsst]
  have h4 : ¬ receiver.status ≠ AccountStatus.active := by simp [hrst]
  have h5 : ¬ sender.balance < amount := not_lt.mpr hbal
  simp only [internal_transfer_f, hs, hr, h1, h2, h3, h4, h5, if_false, ite_false,
    not_false_iff, if_true, ite_true]

lemma internal_transfer_f_ok_accounts (auditOk : Bool) (s : BankState)
    (uid said raid : Nat) (amount : ℚ) (d : Option String)
    (sender receiver : Account)
    (hs : getAccount s said = some sender)
    (hr : getAccount s raid = some receiver)
    (hpos : 0 < amount)
    (howns : sender.user_id = uid) (hownr : receiver.user_id = uid)
    (hsst : sender.status = .active) (hrst : receiver.status = .active)
    (hbal : amount ≤ sender.balance) :
    (internal_transfer_f auditOk true s uid said raid amount d).2.accounts =
      s.accounts.map (fun a =>
        let a1 := if a.id == said then
          { a with balance := roundB64 (a.balance - amount) } else a
        let a2 := if a1.id == raid then
          { a1 with balance := roundB64 (a1.balance + amount) } else a1
        let a3 := if a2.id == said then { a2 with updated_at := s.now } else a2
        if a3.id == raid then { a3 with updated_at := s.now } else a3) := by
  have h1 : ¬ amount ≤ 0 := not_le.mpr hpos
  have h2 : ¬ (sender.user_id ≠ uid ∨ receiver.user_id ≠ uid) := by
    simp [howns, hownr]
  have h3 : ¬ sender.status ≠ AccountStatus.active := by simp [hsst]
  have h4 : ¬ receiver.status ≠ AccountStatus.active := by simp [hrst]
  have h5 : ¬ sender.balance < amount := not_lt.mpr hbal
  simp only [internal_transfer_f, hs, hr, h1, h2, h3, h4, h5, if_false, ite_false,
    not_false_iff, if_true, ite_true]
  rw [log_audit_accounts]
  simp only [updateAccount, List.map_map]
  rfl

/-- Account whose stored binary64 balance is 1 + 2^-52, the smallest
double above 1. -/
def accountF1 : Account :=
  { id := 1, account_number := "ACC-0000000011", user_id := 10
    account_type := .checking, balance := 1 + (2:ℚ)^(-52:ℤ), status := .active
    opening_balance := 1 + (2:ℚ)^(-52:ℤ), updated_at := 0 }

/-- Account with stored balance 0, same owner. -/
def accountF2 : Account :=
  { id := 2, account_number := "ACC-0000000012", user_id := 10
    account_type := .savings, balance := 0, status := .active
    opening_balance := 0, updated_at := 0 }

/-- Store holding the two binary64 demo accounts. -/
def floatDemoState : BankState :=
  { accounts := [accountF1, accountF2]
    transactions := [], auditLog := [], nextTxId := 0, now := 1 }

lemma float_sub_ulp : (1 + (2:ℚ)^(-52:ℤ)) - (2:ℚ)^(-53:ℤ) = 1 + (2:ℚ)^(-53:ℤ) := by
  rw [show (2:ℚ)^(-52:ℤ) = 1/2^52 by norm_num [zpow_neg],
      show (2:ℚ)^(-53:ℤ) = 1/2^53 by norm_num [zpow_neg]]
  norm_num

lemma roundB64_one_add_ulpInv : roundB64 (1 + ((2:ℚ)^(53:ℤ))⁻¹) = 1 := by
  rw [← zpow_neg (2:ℚ) 53]
  exact roundB64_one_add_ulp

lemma roundB64_ulpInv_self : roundB64 (((2:ℚ)^(53:ℤ))⁻¹) = ((2:ℚ)^(53:ℤ))⁻¹ := by
  rw [← zpow_neg (2:ℚ) 53]
  exact roundB64_ulp_self

lemma float_sub_ulpInv :
    (1:ℚ) + ((2:ℚ)^(52:ℤ))⁻¹ - ((2:ℚ)^(53:ℤ))⁻¹ = 1 + ((2:ℚ)^(53:ℤ))⁻¹ := by
  rw [← zpow_neg (2:ℚ) 52, ← zpow_neg (2:ℚ) 53]
  rw [show (2:ℚ)^(-52:ℤ) = 1/2^52 by norm_num [zpow_neg],
      show (2:ℚ)^(-53:ℤ) = 1/2^53 by norm_num [zpow_neg]]
  norm_num

lemma float_demo_bal : (2:ℚ)^(-53:ℤ) ≤ accountF1.balance := by
  show (2:ℚ)^(-53:ℤ) ≤ 1 + (2:ℚ)^(-52:ℤ)
  rw [show (2:ℚ)^(-52:ℤ) = 1/2^52 by norm_num [zpow_neg],
      show (2:ℚ)^(-53:ℤ) = 1/2^53 by norm_num [zpow_neg]]
  norm_num

/-- Counterexample for C1: under the binary64 balance arithmetic the
source actually performs, a successful internal transfer need not
debit the sender by exactly the amount, and the sum of balances
changes.  Transferring 2^-53 from a sender whose stored balance is
1 + 2^-52 (the double just above 1) rounds the debited balance to 1
(round half to even), so the sender loses 2^-52 — twice the amount —
while the receiver gains exactly 2^-53, and the total drifts down by
2^-53. -/
theorem c1_counterexample_float_drift :
    exceptIsOk (internal_transfer_f true true floatDemoState 10 1 2
      ((2:ℚ)^(-53:ℤ)) none).1 = true ∧
    (internal_transfer_f true true floatDemoState 10 1 2
      ((2:ℚ)^(-53:ℤ)) none).2.accounts.map (fun a => a.balance) =
      [1, (2:ℚ)^(-53:ℤ)] ∧
    accountF1.balance - 1 ≠ (2:ℚ)^(-53:ℤ) ∧
    totalBalance (internal_transfer_f true true floatDemoState 10 1 2
      ((2:ℚ)^(-53:ℤ)) none).2 ≠ totalBalance floatDemoState := by
  have hs : getAccount floatDemoState 1 = some accountF1 := rfl
  have hr : getAccount floatDemoState 2 = some accountF2 := rfl
  have hpos : (0:ℚ) < (2:ℚ)^(-53:ℤ) := by positivity
  have hmap : (internal_transfer_f true true floatDemoState 10 1 2
      ((2:ℚ)^(-53:ℤ)) none).2.accounts.map (fun a => a.balance) =
      [1, (2:ℚ)^(-53:ℤ)] := by
    rw [internal_transfer_f_ok_accounts true floatDemoState 10 1 2
      ((2:ℚ)^(-53:ℤ)) none accountF1 accountF2 hs hr hpos rfl rfl rfl rfl
      float_demo_bal]
    simp [floatDemoState, accountF1, accountF2]
    constructor
    · rw [float_sub_ulpInv, roundB64_one_add_ulpInv]
    · exact roundB64_ulpInv_self
  refine ⟨?_, hmap, ?_, ?_⟩
  · rw [internal_transfer_f_ok_result true floatDemoState 10 1 2
      ((2:ℚ)^(-53:ℤ)) none accountF1 accountF2 hs hr hpos rfl rfl rfl rfl
      float_demo_bal]
    rfl
  · show (1 + (2:ℚ)^(-52:ℤ)) - 1 ≠ (2:ℚ)^(-53:ℤ)
    rw [show (2:ℚ)^(-52:ℤ) = 1/2^52 by norm_num [zpow_neg],
        show (2:ℚ)^(-53:ℤ) = 1/2^53 by norm_num [zpow_neg]]
    norm_num
  · unfold totalBalance balSum
    rw [hmap]
    simp [floatDemoState, accountF1, accountF2]

/-- Counterexample for C10: under the binary64 balance arithmetic of
the source, a self transfer does NOT leave the balance exactly
unchanged.  A self transfer of 2^-53 on a stored balance of 1 + 2^-52
computes roundB64(roundB64(b - a) + a) = 1 (both roundings go to 1 by
round half to even), so the call succeeds yet the stored balance drops
from 1 + 2^-52 to 1. -/
theorem c10_counterexample_float_self_transfer :
    exceptIsOk (internal_transfer_f true true floatDemoState 10 1 1
      ((2:ℚ)^(-53:ℤ)) none).1 = true ∧
    (internal_transfer_f true true floatDemoState 10 1 1
      ((2:ℚ)^(-53:ℤ)) none).2.accounts.map (fun a => a.balance) = [1, 0] ∧
    (1:ℚ) ≠ accountF1.balance := by
  have hs : getAccount floatDemoState 1 = some accountF1 := rfl
  have hpos : (0:ℚ) < (2:ℚ)^(-53:ℤ) := by positivity
  refine ⟨?_, ?_, ?_⟩
  · rw [internal_transfer_f_ok_result true floatDemoState 10 1 1
      ((2:ℚ)^(-53:ℤ)) none accountF1 accountF1 hs hs hpos rfl rfl rfl rfl
      float_demo_bal]
    rfl
  · rw [internal_transfer_f_ok_accounts true floatDemoState 10 1 1
      ((2:ℚ)^(-53:ℤ)) none accountF1 accountF1 hs hs hpos rfl rfl rfl rfl
      float_demo_bal]
    simp [floatDemoState, accountF1, accountF2]
    rw [float_sub_ulpInv, roundB64_one_add_ulpInv]
    exact roundB64_one_add_ulpInv
  · show (1:ℚ) ≠ 1 + (2:ℚ)^(-52:ℤ)
    rw [show (2:ℚ)^(-52:ℤ) = 1/2^52 by norm_num [zpow_neg]]
    norm_num

end Bank

